import Mathlib

/-!
Verification of the update-payload checker (`scripts/update_payload/checker.py`).

The Python checker is embedded shallowly: protobuf-optional fields become
`Option`, the mutable block-counter arrays become `List Nat` values threaded
through the checks, and every `raise` becomes an `Except.error` carrying a
`CheckError`.  Python runtime exceptions that are distinct from the checker's
own `PayloadError` (`TypeError` on `None` subscripts, `IndexError`,
`KeyError`, `OverflowError` on the unsigned-byte counter array, protobuf
`DecodeError`) are modelled as separate constructors so that statements about
"which exception escapes" are expressible.

Code of the repository that lives outside `checker.py` (the `common`,
`histogram` and payload-parsing helpers it imports) is modelled from the
spec; each such definition carries a doc comment starting with
`Modelled from the spec:`.
-/

namespace UpdateEngine

/-- Errors a checker run can produce.  `payloadError` is the checker's own
typed failure; the other constructors model Python runtime exceptions that
are not `PayloadError`. -/

inductive CheckError where
  | payloadError (msg : String)
  | typeError (msg : String)
  | indexError (msg : String)
  | keyError (msg : String)
  | overflowError (msg : String)
  | decodeError (msg : String)
  | assertionError (msg : String)
deriving Repr, DecidableEq

/-- An extent of the manifest: both protobuf fields are optional. -/

structure Extent where
  start_block : Option Nat
  num_blocks : Option Nat
deriving Repr, DecidableEq

/-- An install operation of the manifest.  `type` carries the raw protobuf
enum value; optional scalar fields become `Option Nat` and the optional
32-byte hash becomes `Option (List Nat)`. -/

structure Operation where
  type : Nat
  src_extents : List Extent
  dst_extents : List Extent
  src_length : Option Nat
  dst_length : Option Nat
  data_offset : Option Nat
  data_length : Option Nat
  data_sha256_hash : Option (List Nat)
deriving Repr, DecidableEq

/-- Modelled from the spec: the operation-type enum values of
`update_metadata_pb2.InstallOperation` used through `common.OpType`
(REPLACE, REPLACE_BZ, MOVE, BSDIFF). -/

def OpType.REPLACE : Nat := 0

/-- Modelled from the spec: enum value of REPLACE_BZ. -/

def OpType.REPLACE_BZ : Nat := 1

/-- Modelled from the spec: enum value of MOVE. -/

def OpType.MOVE : Nat := 2

/-- Modelled from the spec: enum value of BSDIFF. -/

def OpType.BSDIFF : Nat := 3

/-- Modelled from the spec: `common.PSEUDO_EXTENT_MARKER` is the all-ones
64-bit sentinel `0xFFFFFFFFFFFFFFFF`. -/

def PSEUDO_EXTENT_MARKER : Nat := 18446744073709551615

/-- Modelled from the spec: `common.SIG_ASN1_HEADER`, the fixed 19-byte
ASN.1 DigestInfo prefix for SHA-256. -/

def SIG_ASN1_HEADER : List Nat :=
  [48, 49, 48, 13, 6, 9, 96, 134, 72, 1, 101, 3, 4, 2, 1, 5, 0, 4, 32]

/-- `_IsPowerOfTwo` from the source: `val > 0 and (val & (val - 1)) == 0`. -/

def isPowerOfTwo (val : Nat) : Bool :=
  decide (val > 0) && (val &&& (val - 1) == 0)

/-- One entry of the trailing `Signatures` protobuf message. -/

structure Sig where
  version : Option Nat
  data : Option (List Nat)
deriving Repr, DecidableEq

/-- Partition info sub-message of the manifest (`size`, `hash`). -/

structure PartitionInfo where
  size : Option Nat
  hash : Option (List Nat)
deriving Repr, DecidableEq

/-- The payload manifest, with protobuf presence made explicit. -/

structure Manifest where
  block_size : Option Nat
  signatures_offset : Option Nat
  signatures_size : Option Nat
  old_kernel_info : Option PartitionInfo
  old_rootfs_info : Option PartitionInfo
  new_kernel_info : Option PartitionInfo
  new_rootfs_info : Option PartitionInfo
  install_operations : List Operation
  kernel_install_operations : List Operation
deriving Repr, DecidableEq

/-- The payload file header. -/

structure PayloadHeader where
  version : Nat
  manifest_len : Nat
deriving Repr, DecidableEq

/-- Modelled from the spec: the parsed `Payload` object is an external
collaborator (spec section 1).  `fileSize` models seek-to-end + `tell`,
`manifestHash` the digest of the `manifest_hasher`, `payloadHashAt n` the
digest of the manifest hasher extended with the first `n` bytes of the data
section, and `readDataBlob` the byte access `ReadDataBlob(offset, length)`. -/

structure Payload where
  header : PayloadHeader
  manifest : Manifest
  dataOffset : Nat
  fileSize : Nat
  manifestHash : List Nat
  payloadHashAt : Nat → List Nat
  readDataBlob : Nat → Nat → List Nat

/-- Checker configuration plus the external primitives the checker calls.
`sha256` models `hashlib.sha256(...).digest()`, `rsaVerify` the external
`openssl rsautl -verify` subprocess (only its stdout is observable, exactly
like `communicate()`), `parseSignatures` the protobuf
`Signatures.ParseFromString` (`none` models a DecodeError), and the string
valued fields model the report formatters of `common`, `format_utils` and
`histogram` (all external to `checker.py`). -/

structure CheckerCtx where
  blockSize : Nat
  allowUnhashed : Bool
  checkDstPseudoExtents : Bool
  checkMoveSameSrcDstBlock : Bool
  checkPayloadSig : Bool
  sha256 : List Nat → List Nat
  rsaVerify : String → List Nat → List Nat
  parseSignatures : List Nat → Option (List Sig)
  formatSha256 : List Nat → String
  histStr : List (Nat × Nat) → String
  histStrS : List (String × Nat) → String
  histKeyListStr : List Nat → String
  bytesToHuman : Nat → String

/-- The payload type determined while checking the manifest. -/

inductive PType where
  | full
  | delta
deriving Repr, DecidableEq

/-- Render a payload type the way the source's `_TYPE_FULL`/`_TYPE_DELTA`
strings do. -/

def PType.str : PType → String
  | .full => "full"
  | .delta => "delta"

/-- Increment one counter of the unsigned-byte block-counter array
(`block_counters[i] += 1`): `IndexError` outside the array,
`OverflowError` past the 8-bit maximum. -/

def bumpBlock (cs : List Nat) (i : Nat) : Except CheckError (List Nat) :=
  match cs[i]? with
  | none => .error (.indexError "array assignment index out of range")
  | some c =>
      if c + 1 > 255 then
        .error (.overflowError "unsigned byte integer is greater than maximum")
      else
        .ok (cs.set i (c + 1))

/-- Increment through an optional counter array: `None` models the absent
old-partition counters, where Python raises a `TypeError`. -/

def bumpCounters (counters : Option (List Nat)) (i : Nat) :
    Except CheckError (Option (List Nat)) :=
  match counters with
  | none => .error (.typeError "NoneType object does not support item assignment")
  | some cs =>
      match bumpBlock cs i with
      | .error e => .error e
      | .ok cs2 => .ok (some cs2)

/-- `for i in range(start_block, end_block): block_counters[i] += 1`. -/

def bumpRange (counters : Option (List Nat)) (start : Nat) :
    Nat → Except CheckError (Option (List Nat))
  | 0 => .ok counters
  | n + 1 =>
      match bumpCounters counters start with
      | .error e => .error e
      | .ok c2 => bumpRange c2 (start + 1) n

/-- The loop body of `_CheckExtents`: iterates the extent sequence keeping
the running block total and the (optional) counter array.  `origLen` is the
length of the whole extent sequence (`len(extents)` in the source). -/

def checkExtentsLoop (blockSize : Nat) (origLen : Nat) (usableSize : Nat)
    (allowPseudo allowSignature : Bool) :
    List Extent → Nat → Option (List Nat) →
    Except CheckError (Nat × Option (List Nat))
  | [], total, counters => .ok (total, counters)
  | e :: rest, total, counters =>
      match e.start_block with
      | none => .error (.payloadError "extent: missing mandatory field start_block")
      | some startBlock =>
          match e.num_blocks with
          | none => .error (.payloadError "extent: missing mandatory field num_blocks")
          | some numBlocks =>
              if numBlocks == 0 then
                .error (.payloadError "extent: extent length is zero")
              else if startBlock != PSEUDO_EXTENT_MARKER then
                if usableSize != 0 && decide ((startBlock + numBlocks) * blockSize > usableSize) then
                  .error (.payloadError "extent: extent exceeds usable partition size")
                else
                  match bumpRange counters startBlock numBlocks with
                  | .error err => .error err
                  | .ok c2 =>
                      checkExtentsLoop blockSize origLen usableSize allowPseudo
                        allowSignature rest (total + numBlocks) c2
              else if !(allowPseudo || (allowSignature && origLen == 1)) then
                .error (.payloadError "extent: unexpected pseudo-extent")
              else
                checkExtentsLoop blockSize origLen usableSize allowPseudo
                  allowSignature rest (total + numBlocks) counters

/-- `PayloadChecker._CheckExtents`: checks an extent sequence, records block
usage in the counters, and returns the total number of blocks. -/

def checkExtents (blockSize : Nat) (extents : List Extent) (usableSize : Nat)
    (counters : Option (List Nat)) (allowPseudo allowSignature : Bool) :
    Except CheckError (Nat × Option (List Nat)) :=
  checkExtentsLoop blockSize extents.length usableSize allowPseudo
    allowSignature extents 0 counters

/-- Total number of blocks of an extent sequence, counting pseudo-extents
(missing `num_blocks` counts 0; `_CheckExtents` rejects that case anyway). -/

def totalBlocks (extents : List Extent) : Nat :=
  (extents.map (fun e => e.num_blocks.getD 0)).sum

/-- `PayloadChecker._CheckBlocksFitLength`: the data length must fit the
allocated blocks and exceed the space of one block fewer.  The second
comparison is over the integers, exactly like Python's
`length <= (num_blocks - 1) * block_size`. -/

def checkBlocksFitLength (length numBlocks blockSize : Nat) :
    Except CheckError Unit :=
  if decide (length > numBlocks * blockSize) then
    .error (.payloadError "length greater than num blocks * block_size")
  else if decide ((length : Int) ≤ ((numBlocks : Int) - 1) * (blockSize : Int)) then
    .error (.payloadError "length not greater than (num blocks - 1) * block_size")
  else
    .ok ()

/-- `PayloadChecker._CheckLength`: a `{src,dst}_length` must be non-zero and
fit the space designated by the extents. -/

def checkLength (length totalBlocks blockSize : Nat) : Except CheckError Unit :=
  if length == 0 then
    .error (.payloadError "length is zero")
  else
    checkBlocksFitLength length totalBlocks blockSize

/-- `PayloadChecker._CheckReplaceOperation`: REPLACE/REPLACE_BZ specific
checks. -/

def checkReplaceOperation (blockSize : Nat) (op : Operation)
    (dataLength : Option Nat) (totalDstBlocks : Nat) : Except CheckError Unit :=
  if !op.src_extents.isEmpty then
    .error (.payloadError "op: contains src_extents")
  else
    match dataLength with
    | none => .error (.payloadError "op: missing data_offset,data_length")
    | some dl =>
        if op.type == OpType.REPLACE then
          checkBlocksFitLength dl totalDstBlocks blockSize
        else
          if decide (dl ≥ totalDstBlocks * blockSize) then
            .error (.payloadError
              "op: data_length must be less than allotted dst block space")
          else
            .ok ()

/-- `PayloadChecker._CheckBsdiffOperation`. -/

def checkBsdiffOperation (blockSize : Nat) (dataLength : Option Nat)
    (totalDstBlocks : Nat) : Except CheckError Unit :=
  match dataLength with
  | none => .error (.payloadError "op: missing data_offset,data_length")
  | some dl =>
      if decide (dl ≥ totalDstBlocks * blockSize) then
        .error (.payloadError
          "op: data_length must be smaller than allotted dst space")
      else
        .ok ()

/-- Weight of a partially consumed extent, for the termination measure of
the MOVE-check loop. -/

def curWeight : Option (Nat × Nat) → Nat
  | none => 0
  | some _ => 1

/-- The `while i < total_src_blocks` loop of
`PayloadChecker._CheckMoveOperation`, taken one action per recursive step:
pull the next src extent when the current one is exhausted, then pull the
next dst extent, then compare the current block indices (when the
`move-same-src-dst-block` check is enabled) and advance both sides by
`min(src_num, dst_num)`.  A current extent is `some (index, remaining)`;
`none` mirrors the source's `src_extent = None`.  After the loop the source
raises on a leftover current src/dst extent ("excess blocks"). -/

def moveLoop (flag : Bool) (total : Nat) (i : Nat)
    (srcRest dstRest : List Extent)
    (srcCur dstCur : Option (Nat × Nat)) : Except CheckError Unit :=
  if _h : i < total then
    match srcCur with
    | none =>
        match srcRest with
        | [] => .error (.payloadError "op: ran out of src extents")
        | e :: rest =>
            moveLoop flag total i rest dstRest
              (some (e.start_block.getD 0, e.num_blocks.getD 0)) dstCur
    | some (srcIdx, srcNum) =>
        match dstCur with
        | none =>
            match dstRest with
            | [] => .error (.payloadError "op: ran out of dst extents")
            | e :: rest =>
                moveLoop flag total i srcRest rest (some (srcIdx, srcNum))
                  (some (e.start_block.getD 0, e.num_blocks.getD 0))
        | some (dstIdx, dstNum) =>
            if flag && srcIdx == dstIdx then
              .error (.payloadError "op: src/dst block number is the same")
            else
              moveLoop flag total (i + min srcNum dstNum) srcRest dstRest
                (if srcNum - min srcNum dstNum == 0 then none
                 else some (srcIdx + min srcNum dstNum, srcNum - min srcNum dstNum))
                (if dstNum - min srcNum dstNum == 0 then none
                 else some (dstIdx + min srcNum dstNum, dstNum - min srcNum dstNum))
  else
    match srcCur with
    | some _ => .error (.payloadError "op: excess src blocks")
    | none =>
        match dstCur with
        | some _ => .error (.payloadError "op: excess dst blocks")
        | none => .ok ()
termination_by
  (total - i) + 2 * (srcRest.length + dstRest.length) +
    curWeight srcCur + curWeight dstCur
decreasing_by
  · simp only [curWeight, List.length_cons]
    omega
  · simp only [curWeight, List.length_cons]
    omega
  · simp only [curWeight, beq_iff_eq]
    split_ifs <;> simp only [curWeight] <;> omega

/-- `PayloadChecker._CheckMoveOperation`. -/

def checkMoveOperation (flag : Bool) (op : Operation) (dataOffset : Option Nat)
    (totalSrcBlocks totalDstBlocks : Nat) : Except CheckError Unit :=
  match dataOffset with
  | some _ => .error (.payloadError "op: contains data_offset,data_length")
  | none =>
      if totalSrcBlocks != totalDstBlocks then
        .error (.payloadError "op: total src blocks != total dst blocks")
      else
        moveLoop flag totalSrcBlocks 0 op.src_extents op.dst_extents none none

/-- The logical block numbers covered by a current (partially consumed)
extent of the MOVE loop. -/

def curBlocks : Option (Nat × Nat) → List Nat
  | none => []
  | some (idx, num) => List.range' idx num

/-- The sequence of logical block numbers addressed by an extent sequence,
in order: extent `(s, n)` contributes `s, s+1, …, s+n-1`. -/

def blocksOf (extents : List Extent) : List Nat :=
  (extents.map (fun e =>
    List.range' (e.start_block.getD 0) (e.num_blocks.getD 0))).flatten

/-- Python dict membership, `k in d.keys()`. -/

def hasKey [BEq α] (d : List (α × Nat)) (k : α) : Bool :=
  d.any (fun p => p.1 == k)

/-- Python `d[k] += v` on a counter dict: a missing key raises `KeyError`. -/

def dictIncr [BEq α] (d : List (α × Nat)) (k : α) (v : Nat) :
    Except CheckError (List (α × Nat)) :=
  if hasKey d k then
    .ok (d.map (fun p => if p.1 == k then (p.1, p.2 + v) else p))
  else
    .error (.keyError "key not found")

/-- `PayloadChecker._CheckPresentIff`: `val1` must be present iff `val2`
is. -/

def checkPresentIff (a : Option α) (b : Option β) : Except CheckError Unit :=
  match a, b with
  | none, some _ => .error (.payloadError "field present without its partner")
  | some _, none => .error (.payloadError "field present without its partner")
  | _, _ => .ok ()

/-- The state a single `_CheckOperation` call returns: the data amount it
used plus the updated read counters, write counters and blob-hash counts. -/

structure OpOutcome where
  dataUsed : Nat
  oldCounters : Option (List Nat)
  newCounters : Option (List Nat)
  blobHashCounts : List (String × Nat)
deriving Repr, DecidableEq

/-- `PayloadChecker._CheckOperation`: checks a single update operation,
in the source's order: src extents, dst extents, data-field joint presence,
non-empty dst extents, optional src/dst lengths, blob hash bookkeeping,
data-section contiguity, and the type-specific dispatch. -/

def checkOperation (ctx : CheckerCtx) (payload : Payload) (payloadType : PType)
    (op : Operation) (isLast : Bool)
    (oldBlockCounters newBlockCounters : Option (List Nat))
    (oldFsSize newUsableSize : Nat) (prevDataOffset : Nat)
    (allowSignature : Bool) (blobHashCounts : List (String × Nat)) :
    Except CheckError OpOutcome :=
  match checkExtents ctx.blockSize op.src_extents oldFsSize oldBlockCounters
      true false with
  | .error e => .error e
  | .ok (totalSrcBlocks, oldCounters2) =>
    match checkExtents ctx.blockSize op.dst_extents newUsableSize
        newBlockCounters (!ctx.checkDstPseudoExtents)
        (allowSignature && isLast && (op.type == OpType.REPLACE)) with
    | .error e => .error e
    | .ok (totalDstBlocks, newCounters2) =>
      match checkPresentIff op.data_offset op.data_length with
      | .error e => .error e
      | .ok () =>
        if op.dst_extents.isEmpty then
          .error (.payloadError "op: dst_extents is empty")
        else
          match ((match op.src_length with
                 | some l => checkLength l totalSrcBlocks ctx.blockSize
                 | none => .ok ()) : Except CheckError Unit) with
          | .error e => .error e
          | .ok () =>
            match ((match op.dst_length with
                   | some l => checkLength l totalDstBlocks ctx.blockSize
                   | none => .ok ()) : Except CheckError Unit) with
            | .error e => .error e
            | .ok () =>
              match ((match op.data_sha256_hash with
                     | some hash =>
                         match dictIncr blobHashCounts "hashed" 1 with
                         | .error e => .error e
                         | .ok bhc2 =>
                             match op.data_offset, op.data_length with
                             | none, _ =>
                                 .error (.payloadError
                                   "op: data_sha256_hash present but no data_offset,data_length")
                             | some dOff, some dLen =>
                                 if hash != ctx.sha256 (payload.readDataBlob dOff dLen) then
                                   .error (.payloadError
                                     "op: data_sha256_hash does not match actual hash")
                                 else
                                   .ok bhc2
                             | some _, none =>
                                 .error (.typeError
                                   "ReadDataBlob length is not an integer")
                     | none =>
                         match op.data_offset with
                         | some _ =>
                             if allowSignature && isLast && (op.type == OpType.REPLACE) then
                               dictIncr blobHashCounts "signature" 1
                             else if ctx.allowUnhashed then
                               dictIncr blobHashCounts "unhashed" 1
                             else
                               .error (.payloadError "op: unhashed operation not allowed")
                         | none => .ok blobHashCounts) : Except CheckError (List (String × Nat))) with
              | .error e => .error e
              | .ok bhc3 =>
                match ((match op.data_offset with
                       | some dOff =>
                           if dOff != prevDataOffset then
                             .error (.payloadError
                               "op: data offset not matching amount used so far")
                           else
                             .ok ()
                       | none => .ok ()) : Except CheckError Unit) with
                | .error e => .error e
                | .ok () =>
                  match ((if op.type == OpType.REPLACE || op.type == OpType.REPLACE_BZ then
                           checkReplaceOperation ctx.blockSize op op.data_length
                             totalDstBlocks
                         else if payloadType == PType.full then
                           .error (.payloadError
                             "op: non-REPLACE operation in a full payload")
                         else if op.type == OpType.MOVE then
                           checkMoveOperation ctx.checkMoveSameSrcDstBlock op
                             op.data_offset totalSrcBlocks totalDstBlocks
                         else if op.type == OpType.BSDIFF then
                           checkBsdiffOperation ctx.blockSize op.data_length
                             totalDstBlocks
                         else
                           .error (.assertionError "cannot get here")) : Except CheckError Unit) with
                  | .error e => .error e
                  | .ok () =>
                      .ok ⟨op.data_length.getD 0, oldCounters2, newCounters2, bhc3⟩

/-- A node of the payload report: a `(name, value)` field, a section
header, or a nested sub-report. -/

inductive RNode where
  | fieldN (name : Option String) (value : String) (linebreak : Bool) (indent : Nat)
  | sectionN (title : Option String)
  | subN (title : String) (nodes : List RNode)

/-- `_PayloadReport`: an append-only node list plus the finalized flag. -/

structure Report where
  nodes : List RNode
  finalized : Bool

/-- A fresh report (the untitled global section is implicit). -/

def Report.empty : Report := ⟨[], false⟩

/-- `_PayloadReport.AddField`. -/

def Report.addField (r : Report) (name : Option String) (value : String)
    (linebreak : Bool) (indent : Nat) : Report :=
  { r with nodes := r.nodes ++ [.fieldN name value linebreak indent] }

/-- `_PayloadReport.AddSection`. -/

def Report.addSection (r : Report) (title : String) : Report :=
  { r with nodes := r.nodes ++ [.sectionN (some title)] }

/-- `_PayloadReport.AddSubReport`: appends an empty sub-report and returns
its index, through which later fields are added into it. -/

def Report.addSubReport (r : Report) (title : String) : Report × Nat :=
  ({ r with nodes := r.nodes ++ [.subN title []] }, r.nodes.length)

/-- Append a field into the sub-report node at index `idx`. -/

def Report.addFieldAt (r : Report) (idx : Nat) (name : Option String)
    (value : String) (linebreak : Bool) (indent : Nat) : Report :=
  { r with nodes := r.nodes.mapIdx (fun j n =>
      if j == idx then
        match n with
        | .subN t ns => .subN t (ns ++ [.fieldN name value linebreak indent])
        | other => other
      else n) }

/-- `_PayloadReport.Finalize`. -/

def Report.finalize (r : Report) : Report := { r with finalized := true }

/-- Length of the name of a field node (0 otherwise); what
`max_field_name_len` accumulates. -/

def fieldNameLen : RNode → Nat
  | .fieldN (some n) _ _ _ => n.length
  | _ => 0

/-- The `max_field_name_len` of the section beginning at this node list:
the longest field name before the next section header. -/

def maxFieldLen : List RNode → Nat
  | [] => 0
  | .sectionN _ :: _ => 0
  | n :: rest => max (fieldNameLen n) (maxFieldLen rest)

/-- A run of `n` spaces, Python's `'%*s' % (n, '')`. -/

def spaces (n : Nat) : String := String.mk (List.replicate n ' ')

/-- `Node._Indent`. -/

def indentLine (n : Nat) (line : String) : String := spaces n ++ line

/-- `FieldNode.GenerateLines`: renders `name_padded : value` with
continuation lines aligned under the value (or on fresh indented lines when
`linebreak` is set). -/

def fieldLines (baseIndent currMax : Nat) (name : Option String)
    (value : String) (linebreak : Bool) (indent : Nat) : List String :=
  let valueLines := value.splitOn "\n"
  let head := match name with
    | some n => n ++ spaces (currMax - n.length) ++ " :"
    | none => ""
  let output :=
    if linebreak && name.isSome then
      head ++ "\n" ++
        String.intercalate "\n" (valueLines.map (fun l => spaces indent ++ l))
    else
      let head2 := (if name.isSome then head ++ " " else head) ++ spaces indent
      match valueLines with
      | [] => head2
      | l0 :: rest =>
          head2 ++ String.intercalate "\n"
            (l0 :: rest.map (fun l => spaces head2.length ++ l))
  (output.splitOn "\n").map (fun l => indentLine baseIndent (l ++ "\n"))

/-- `_PayloadReport.GenerateLines`, threading the current section's
field-name column width and recursing into sub-reports with increased
indentation. -/

def renderGo (baseIndent subIndent : Nat) :
    List RNode → Nat → List String
  | [], _ => []
  | .sectionN t :: rest, _ =>
      (match t with
       | some title => [indentLine baseIndent ("=== " ++ title ++ " ===\n")]
       | none => []) ++
      renderGo baseIndent subIndent rest (maxFieldLen rest)
  | .fieldN name value lb ind :: rest, currMax =>
      fieldLines baseIndent currMax name value lb ind ++
      renderGo baseIndent subIndent rest currMax
  | .subN title ns :: rest, currMax =>
      [indentLine baseIndent (title ++ " =>\n")] ++
      renderGo (baseIndent + subIndent) subIndent ns (maxFieldLen ns) ++
      renderGo baseIndent subIndent rest currMax

/-- All lines of a report. -/

def Report.generateLines (r : Report) (baseIndent subIndent : Nat) :
    List String :=
  renderGo baseIndent subIndent r.nodes (maxFieldLen r.nodes)

/-- `_PayloadReport.Dump` (as the list of written lines): appends the
`(incomplete report)` marker only when there are lines and the report was
not finalized. -/

def Report.dumpLines (r : Report) (baseIndent subIndent : Nat) : List String :=
  let lines := r.generateLines baseIndent subIndent
  if !lines.isEmpty && !r.finalized then
    lines ++ ["(incomplete report)\n"]
  else
    lines

/-- `PayloadChecker._SizeToNumBlocks` (Python 2 integer division). -/

def sizeToNumBlocks (blockSize size : Nat) : Nat :=
  (size + blockSize - 1) / blockSize

/-- `PayloadChecker._AllocBlockCounters`. -/

def allocBlockCounters (blockSize totalSize : Nat) : List Nat :=
  List.replicate (sizeToNumBlocks blockSize totalSize) 0

/-- Modelled from the spec: `histogram.Histogram.FromKeyList(l).GetKeys()`
equals `[1]` exactly when the histogram's key set is `{1}`, i.e. the list
is non-empty and every element is 1. -/

def histKeysExactlyOne (l : List Nat) : Bool :=
  !l.isEmpty && l.all (fun c => c == 1)

/-- The running state of the `_CheckOperations` loop. -/

structure OpsState where
  totalDataUsed : Nat
  opCounts : List (Nat × Nat)
  opBlobTotals : List (Nat × Nat)
  blobHashCounts : List (String × Nat)
  oldCounters : Option (List Nat)
  newCounters : Option (List Nat)
  opNum : Nat
deriving Repr, DecidableEq

/-- The initial dictionaries and counters of `_CheckOperations`: MOVE has no
entry in `op_blob_totals`, `'signature'` is counted only when signatures are
allowed, and old-partition counters exist only for a non-zero old size. -/

def initOpsState (blockSize : Nat) (allowSignature : Bool)
    (oldFsSize newUsableSize : Nat) : OpsState :=
  { totalDataUsed := 0
    opCounts := [(OpType.REPLACE, 0), (OpType.REPLACE_BZ, 0),
                 (OpType.MOVE, 0), (OpType.BSDIFF, 0)]
    opBlobTotals := [(OpType.REPLACE, 0), (OpType.REPLACE_BZ, 0),
                     (OpType.BSDIFF, 0)]
    blobHashCounts := [("hashed", 0), ("unhashed", 0)] ++
      (if allowSignature then [("signature", 0)] else [])
    oldCounters := if oldFsSize != 0 then
        some (allocBlockCounters blockSize oldFsSize)
      else none
    newCounters := some (allocBlockCounters blockSize newUsableSize)
    opNum := 0 }

/-- The per-operation loop of `PayloadChecker._CheckOperations`: checks the
operation type is known, counts it, runs `_CheckOperation` with the running
data cursor `prevDataOffset + totalDataUsed`, and accumulates the blob
totals when the operation used data. -/

def checkOperationsLoop (ctx : CheckerCtx) (payload : Payload)
    (payloadType : PType) (oldFsSize newUsableSize prevDataOffset : Nat)
    (allowSignature : Bool) (totalLen : Nat) :
    List Operation → OpsState → Except CheckError OpsState
  | [], st => .ok st
  | op :: rest, st =>
      if !hasKey st.opCounts op.type then
        .error (.payloadError "op: invalid type")
      else
        match dictIncr st.opCounts op.type 1 with
        | .error e => .error e
        | .ok oc2 =>
            match checkOperation ctx payload payloadType op
                (st.opNum + 1 == totalLen) st.oldCounters st.newCounters
                oldFsSize newUsableSize (prevDataOffset + st.totalDataUsed)
                allowSignature st.blobHashCounts with
            | .error e => .error e
            | .ok outc =>
                if outc.dataUsed != 0 then
                  match dictIncr st.opBlobTotals op.type outc.dataUsed with
                  | .error e => .error e
                  | .ok bt2 =>
                      checkOperationsLoop ctx payload payloadType oldFsSize
                        newUsableSize prevDataOffset allowSignature totalLen
                        rest
                        { totalDataUsed := st.totalDataUsed + outc.dataUsed
                          opCounts := oc2
                          opBlobTotals := bt2
                          blobHashCounts := outc.blobHashCounts
                          oldCounters := outc.oldCounters
                          newCounters := outc.newCounters
                          opNum := st.opNum + 1 }
                else
                  checkOperationsLoop ctx payload payloadType oldFsSize
                    newUsableSize prevDataOffset allowSignature totalLen rest
                    { totalDataUsed := st.totalDataUsed
                      opCounts := oc2
                      opBlobTotals := st.opBlobTotals
                      blobHashCounts := outc.blobHashCounts
                      oldCounters := outc.oldCounters
                      newCounters := outc.newCounters
                      opNum := st.opNum + 1 }

/-- `PayloadChecker._CheckOperations`: runs the loop from the freshly
initialized state, emits the statistics and histogram report fields, and
enforces the full-payload write-once rule over the write histogram of the
reported (not usable) new size. -/

def checkOperations (ctx : CheckerCtx) (payload : Payload)
    (payloadType : PType) (operations : List Operation) (report : Report)
    (oldFsSize newFsSize newUsableSize prevDataOffset : Nat)
    (allowSignature : Bool) : Except CheckError Nat × Report :=
  match checkOperationsLoop ctx payload payloadType oldFsSize newUsableSize
      prevDataOffset allowSignature operations.length operations
      (initOpsState ctx.blockSize allowSignature oldFsSize newUsableSize) with
  | .error e => (.error e, report)
  | .ok st =>
      let report := report.addField (some "total operations")
        (toString st.opNum) false 0
      let report := report.addField none (ctx.histStr st.opCounts) false 1
      let report := report.addField (some "total blobs")
        (toString ((st.blobHashCounts.map Prod.snd).sum)) false 0
      let report := report.addField none (ctx.histStrS st.blobHashCounts) false 1
      let report := report.addField (some "total blob size")
        (toString st.totalDataUsed ++ " (" ++
          ctx.bytesToHuman st.totalDataUsed ++ ")") false 0
      let report := report.addField none (ctx.histStr st.opBlobTotals) false 1
      let report := match st.oldCounters with
        | some cs =>
            if !cs.isEmpty then
              report.addField (some "block read hist")
                (ctx.histKeyListStr cs) true 1
            else report
        | none => report
      let window := (st.newCounters.getD []).take
        (sizeToNumBlocks ctx.blockSize newFsSize)
      let report := report.addField (some "block write hist")
        (ctx.histKeyListStr window) true 1
      if payloadType == PType.full && !histKeysExactlyOne window then
        (.error (.payloadError
          "not all blocks written exactly once during full update"), report)
      else
        (.ok st.totalDataUsed, report)

/-- `PayloadChecker._CheckSha256Signature`: the signature must be exactly
256 bytes; the plaintext recovered by the external RSA verifier must have
length `len(SIG_ASN1_HEADER) + 32`, start with `SIG_ASN1_HEADER`, and its
trailing 32 bytes must equal the expected digest.  The verifier's exit code
is not observable (`communicate()` only yields its output). -/

def checkSha256Signature (ctx : CheckerCtx) (sigData : List Nat)
    (pubkeyFileName : String) (actualHash : List Nat) :
    Except CheckError Unit :=
  if sigData.length != 256 then
    .error (.payloadError "sig: signature size not as expected (256)")
  else
    let signedData := ctx.rsaVerify pubkeyFileName sigData
    if signedData.length != SIG_ASN1_HEADER.length + 32 then
      .error (.payloadError "sig: unexpected signed data length")
    else if !(SIG_ASN1_HEADER.isPrefixOf signedData) then
      .error (.payloadError "sig: not containing standard ASN.1 prefix")
    else if signedData.drop SIG_ASN1_HEADER.length != actualHash then
      .error (.payloadError "sig: signed hash different from actual")
    else
      .ok ()

/-- The checker state `_CheckManifest` exports: payload type, signature
block position, and the four filesystem sizes. -/

structure ManifestResult where
  payloadType : PType
  sigsOffset : Option Nat
  sigsSize : Option Nat
  oldKernelFsSize : Nat
  oldRootfsFsSize : Nat
  newKernelFsSize : Nat
  newRootfsFsSize : Nat
deriving Repr, DecidableEq

/-- The repeated `_CheckMandatoryField` pattern on a partition-info
sub-message: mandatory `size` and `hash`, both reported into the
sub-report at `idx`; returns the size. -/

def checkInfoFields (ctx : CheckerCtx) (report : Report) (idx : Nat)
    (info : PartitionInfo) : Except CheckError Nat × Report :=
  match info.size with
  | none => (.error (.payloadError "info: missing mandatory field size"), report)
  | some sz =>
      let report := report.addFieldAt idx (some "size") (toString sz) false 0
      match info.hash with
      | none =>
          (.error (.payloadError "info: missing mandatory field hash"), report)
      | some hsh =>
          (.ok sz,
           report.addFieldAt idx (some "hash") (ctx.formatSha256 hsh) false 0)

/-- The tail of `_CheckManifest` shared by the full and delta branches:
mandatory `new_kernel_info` / `new_rootfs_info` with their sizes and
hashes, the new-size-fits-partition checks, and the at-least-one-operation
check. -/

def checkManifestNew (ctx : CheckerCtx) (manifest : Manifest)
    (rootfsPartSize kernelPartSize : Nat) (pt : PType) (oldK oldR : Nat)
    (sigsOff sigsSize : Option Nat) (report : Report) :
    Except CheckError ManifestResult × Report :=
  match manifest.new_kernel_info with
  | none =>
      (.error (.payloadError
        "manifest: missing mandatory sub-message new_kernel_info"), report)
  | some nki =>
      match report.addSubReport "new_kernel_info" with
      | (report, nkiIdx) =>
        match checkInfoFields ctx report nkiIdx nki with
        | (.error e, r) => (.error e, r)
        | (.ok nks, report) =>
            match manifest.new_rootfs_info with
            | none =>
                (.error (.payloadError
                  "manifest: missing mandatory sub-message new_rootfs_info"),
                 report)
            | some nri =>
                match report.addSubReport "new_rootfs_info" with
                | (report, nriIdx) =>
                  match checkInfoFields ctx report nriIdx nri with
                  | (.error e, r) => (.error e, r)
                  | (.ok nrs, report) =>
                      if kernelPartSize != 0 && decide (nks > kernelPartSize) then
                        (.error (.payloadError
                          "new kernel content exceed partition size"), report)
                      else if rootfsPartSize != 0 && decide (nrs > rootfsPartSize) then
                        (.error (.payloadError
                          "new rootfs content exceed partition size"), report)
                      else if manifest.install_operations.isEmpty &&
                          manifest.kernel_install_operations.isEmpty then
                        (.error (.payloadError "payload contains no operations"),
                         report)
                      else
                        (.ok ⟨pt, sigsOff, sigsSize, oldK, oldR, nks, nrs⟩,
                         report)

/-- `PayloadChecker._CheckManifest`, in the source's order: mandatory
`block_size` equal to the configured one, joint presence of the signature
fields, joint presence of the old-partition infos determining full/delta
against `assert_type`, old sizes against the supplied partition sizes, then
the shared new-info tail. -/

def checkManifest (ctx : CheckerCtx) (manifest : Manifest)
    (assertType : Option PType) (rootfsPartSize kernelPartSize : Nat)
    (report : Report) : Except CheckError ManifestResult × Report :=
  let report := report.addSection "manifest"
  match manifest.block_size with
  | none =>
      (.error (.payloadError "manifest: missing mandatory field block_size"),
       report)
  | some actualBlockSize =>
    let report := report.addField (some "block_size")
      (toString actualBlockSize) false 0
    if actualBlockSize != ctx.blockSize then
      (.error (.payloadError "block_size not as expected"), report)
    else
      let report := match manifest.signatures_offset with
        | some v => report.addField (some "signatures_offset") (toString v) false 0
        | none => report
      let report := match manifest.signatures_size with
        | some v => report.addField (some "signatures_size") (toString v) false 0
        | none => report
      match checkPresentIff manifest.signatures_offset
          manifest.signatures_size with
      | .error e => (.error e, report)
      | .ok () =>
        match manifest.old_kernel_info, manifest.old_rootfs_info with
        | some oki, some ori =>
            (match report.addSubReport "old_kernel_info" with
             | (report, okiIdx) =>
               match report.addSubReport "old_rootfs_info" with
               | (report, oriIdx) =>
                 if assertType == some PType.full then
                   (.error (.payloadError
                     "apparent full payload contains old_kernel,rootfs_info"),
                    report)
                 else
                   match checkInfoFields ctx report okiIdx oki with
                   | (.error e, r) => (.error e, r)
                   | (.ok oks, report) =>
                     match checkInfoFields ctx report oriIdx ori with
                     | (.error e, r) => (.error e, r)
                     | (.ok ors, report) =>
                       if kernelPartSize != 0 && decide (oks > kernelPartSize) then
                         (.error (.payloadError
                           "old kernel content exceed partition size"), report)
                       else if rootfsPartSize != 0 && decide (ors > rootfsPartSize) then
                         (.error (.payloadError
                           "old rootfs content exceed partition size"), report)
                       else
                         checkManifestNew ctx manifest rootfsPartSize
                           kernelPartSize PType.delta oks ors
                           manifest.signatures_offset manifest.signatures_size
                           report)
        | none, none =>
            if assertType == some PType.delta then
              (.error (.payloadError
                "apparent delta payload missing old_kernel,rootfs_info"),
               report)
            else
              checkManifestNew ctx manifest rootfsPartSize kernelPartSize
                PType.full 0 0 manifest.signatures_offset
                manifest.signatures_size report
        | some _, none =>
            (.error (.payloadError "field present without its partner"), report)
        | none, some _ =>
            (.error (.payloadError "field present without its partner"), report)

/-- Python truthiness of an optional integer field (`if self.sigs_size:`). -/

def optTruthy : Option Nat → Bool
  | some s => s != 0
  | none => false

/-- The per-signature loop of `_CheckSignatures`: sub-report per entry,
mandatory `version` (reported) and `data` (not reported), the data length
field, and RSA verification for version 1 only. -/

def checkSignaturesLoop (ctx : CheckerCtx) (pubkey : String)
    (digest : List Nat) : List Sig → Report → Except CheckError Unit × Report
  | [], report => (.ok (), report)
  | sig :: rest, report =>
      match report.addSubReport "signatures" with
      | (report, idx) =>
        match sig.version with
        | none =>
            (.error (.payloadError "sig: missing mandatory field version"),
             report)
        | some v =>
            let report := report.addFieldAt idx (some "version")
              (toString v) false 0
            match sig.data with
            | none =>
                (.error (.payloadError "sig: missing mandatory field data"),
                 report)
            | some dat =>
                let report := report.addFieldAt idx (some "data len")
                  (toString dat.length) false 0
                if v == 1 then
                  match checkSha256Signature ctx dat pubkey digest with
                  | .error e => (.error e, report)
                  | .ok () => checkSignaturesLoop ctx pubkey digest rest report
                else
                  (.error (.payloadError "unknown signature version"), report)

/-- `PayloadChecker._CheckSignatures`: reads and parses the signatures
blob, requires a non-empty signature list, matches the trailing fake
REPLACE operation against `signatures_offset`/`signatures_size`, and
verifies every entry against the payload hash up to the signatures
offset. -/

def checkSignatures (ctx : CheckerCtx) (payload : Payload) (pubkey : String)
    (sigsOffset sigsSize : Nat) (report : Report) :
    Except CheckError Unit × Report :=
  let sigsRaw := payload.readDataBlob sigsOffset sigsSize
  match ctx.parseSignatures sigsRaw with
  | none => (.error (.decodeError "Signatures.ParseFromString failed"), report)
  | some sigs =>
      let report := report.addSection "signatures"
      if sigs.isEmpty then
        (.error (.payloadError "signature block is empty"), report)
      else
        let lastOpsSection :=
          if !payload.manifest.kernel_install_operations.isEmpty then
            payload.manifest.kernel_install_operations
          else
            payload.manifest.install_operations
        match lastOpsSection.getLast? with
        | none => (.error (.indexError "list index out of range"), report)
        | some fakeSigOp =>
            if !(fakeSigOp.type == OpType.REPLACE &&
                sigsOffset == fakeSigOp.data_offset.getD 0 &&
                sigsSize == fakeSigOp.data_length.getD 0) then
              (.error (.payloadError
                "signatures_offset,size does not match last operation"),
               report)
            else
              checkSignaturesLoop ctx pubkey (payload.payloadHashAt sigsOffset)
                sigs report

/-- Error propagation of the report-carrying checks in `Run`: a failed
check aborts with its report, a successful one feeds its value and report
to the next step. -/
def andThen (x : Except CheckError α × Report)
    (f : α → Report → Except CheckError β × Report) :
    Except CheckError β × Report :=
  match x with
  | (.error e, rep) => (.error e, rep)
  | (.ok a, rep) => f a rep

/-- `rootfs_part_size if rootfs_part_size else self.new_rootfs_fs_size`:
a supplied partition size of 0 means "use the reported filesystem size". -/
def partSizeOrDefault (partSize dflt : Nat) : Nat :=
  if partSize != 0 then partSize else dflt

/-- `PayloadChecker.Run` without the final report dump: the metadata
signature pre-check, the header check, the manifest check, the rootfs and
kernel operation sequences sharing one data cursor, the end-of-payload size
check, the payload-signature check, and the summary.  Returns the outcome
together with the report accumulated up to the error (if any). -/

def runCore (ctx : CheckerCtx) (payload : Payload) (assertType : Option PType)
    (pubkeyFileName : Option String) (metadataSig : Option (List Nat))
    (rootfsPartSize kernelPartSize : Nat) : Except CheckError Unit × Report :=
  let report := Report.empty
  let payloadFileSize := payload.fileSize
  match ((match metadataSig with
          | some sig =>
              match pubkeyFileName with
              | none =>
                  .error (.payloadError
                    "no public key provided, cannot verify metadata signature")
              | some pk => checkSha256Signature ctx sig pk payload.manifestHash
          | none => .ok ()) : Except CheckError Unit) with
  | .error e => (.error e, report)
  | .ok () =>
    let report := report.addSection "header"
    if payload.header.version != 1 then
      (.error (.payloadError "unknown payload version"), report)
    else
      let report := report.addField (some "version")
        (toString payload.header.version) false 0
      let report := report.addField (some "manifest len")
        (toString payload.header.manifest_len) false 0
      andThen (checkManifest ctx payload.manifest assertType rootfsPartSize
          kernelPartSize report) (fun mres report =>
        let report := report.addSection "rootfs operations"
        andThen (checkOperations ctx payload mres.payloadType
            payload.manifest.install_operations report mres.oldRootfsFsSize
            mres.newRootfsFsSize
            (partSizeOrDefault rootfsPartSize mres.newRootfsFsSize) 0
            false) (fun totalBlobSize1 report =>
          let report := report.addSection "kernel operations"
          andThen (checkOperations ctx payload mres.payloadType
              payload.manifest.kernel_install_operations report
              mres.oldKernelFsSize mres.newKernelFsSize
              (partSizeOrDefault kernelPartSize mres.newKernelFsSize)
              totalBlobSize1 true) (fun totalBlobSize2 report =>
            if payload.dataOffset + (totalBlobSize1 + totalBlobSize2) !=
                payloadFileSize then
              (.error (.payloadError
                "used payload size different from actual file size"), report)
            else
              andThen ((if ctx.checkPayloadSig && optTruthy mres.sigsSize then
                       match pubkeyFileName with
                       | none =>
                           (.error (.payloadError
                             "no public key provided, cannot verify payload signature"),
                            report)
                       | some pk =>
                           checkSignatures ctx payload pk
                             (mres.sigsOffset.getD 0) (mres.sigsSize.getD 0)
                             report
                     else (.ok (), report)) :
                     Except CheckError Unit × Report) (fun _ report =>
                  let report := report.addSection "summary"
                  let report := report.addField (some "update type")
                    mres.payloadType.str false 0
                  (.ok (), report.finalize)))))

/-- `PayloadChecker.Run` with the scoped report dump: the report is dumped
(when an output sink was supplied) on both the success and the error exit
path, exactly like the source's `try/finally`. -/

def run (ctx : CheckerCtx) (payload : Payload) (assertType : Option PType)
    (pubkeyFileName : Option String) (metadataSig : Option (List Nat))
    (rootfsPartSize kernelPartSize : Nat) (reportOut : Bool) :
    Except CheckError Unit × List String :=
  match runCore ctx payload assertType pubkeyFileName metadataSig
      rootfsPartSize kernelPartSize with
  | (res, rep) => (res, if reportOut then rep.dumpLines 0 2 else [])

/-- The data amount an operation contributes to the running cursor:
`data_length` when present, else 0 (the value `_CheckOperation` returns). -/
def dataLenD (op : Operation) : Nat := op.data_length.getD 0

/-- A concrete checker configuration (default flags, 4 KiB blocks) with
trivial external primitives, used by the concrete witnesses below. -/
def exCtx : CheckerCtx :=
  { blockSize := 4096, allowUnhashed := true, checkDstPseudoExtents := true,
    checkMoveSameSrcDstBlock := true, checkPayloadSig := true,
    sha256 := fun _ => [], rsaVerify := fun _ _ => [],
    parseSignatures := fun _ => none, formatSha256 := fun _ => "hash",
    histStr := fun _ => "hist", histStrS := fun _ => "hist",
    histKeyListStr := fun _ => "hist", bytesToHuman := fun _ => "size" }

/-- A one-block REPLACE operation covering dst block 0 with 4096 data bytes
at offset 0. -/
def exOpReplace : Operation :=
  { type := OpType.REPLACE, src_extents := [],
    dst_extents := [⟨some 0, some 1⟩], src_length := none, dst_length := none,
    data_offset := some 0, data_length := some 4096,
    data_sha256_hash := none }

/-- The kernel twin of `exOpReplace`, with its data at offset 4096. -/
def exOpKernel : Operation := { exOpReplace with data_offset := some 4096 }

/-- A minimal well-formed full-payload manifest: one rootfs and one kernel
REPLACE operation, 4096-byte new filesystems. -/
def exManifest : Manifest :=
  { block_size := some 4096, signatures_offset := none,
    signatures_size := none, old_kernel_info := none, old_rootfs_info := none,
    new_kernel_info := some ⟨some 4096, some [1]⟩,
    new_rootfs_info := some ⟨some 4096, some [2]⟩,
    install_operations := [exOpReplace],
    kernel_install_operations := [exOpKernel] }

/-- A payload around `exManifest` whose file size matches
`data_offset + total blob size` (100 + 8192). -/
def exPayload : Payload :=
  { header := ⟨1, 500⟩, manifest := exManifest, dataOffset := 100,
    fileSize := 8292, manifestHash := [], payloadHashAt := fun _ => [],
    readDataBlob := fun _ _ => [] }

/-- A REPLACE operation of a full payload carrying a real (non-pseudo)
src extent: the input on which `Run` raises a `TypeError` instead of a
`PayloadError`. -/
def exOpBadSrc : Operation :=
  { exOpReplace with src_extents := [⟨some 0, some 1⟩] }

/-- `exManifest` with the rootfs operation replaced by `exOpBadSrc`. -/
def exManifestBadSrc : Manifest :=
  { exManifest with install_operations := [exOpBadSrc] }

/-- The payload exhibiting the `TypeError` escape of `Run`. -/
def exPayloadBadSrc : Payload := { exPayload with manifest := exManifestBadSrc }

/-- A one-block MOVE operation relocating block 0 to block 1. -/
def exOpMove : Operation :=
  { type := OpType.MOVE, src_extents := [⟨some 0, some 1⟩],
    dst_extents := [⟨some 1, some 1⟩], src_length := none, dst_length := none,
    data_offset := none, data_length := none, data_sha256_hash := none }

theorem totalBlocks_cons (e : Extent) (rest : List Extent) :
    totalBlocks (e :: rest) = e.num_blocks.getD 0 + totalBlocks rest := by
  simp [totalBlocks]

theorem checkExtentsLoop_total (blockSize origLen usableSize : Nat)
    (allowPseudo allowSignature : Bool) :
    ∀ (extents : List Extent) (acc : Nat) (counters : Option (List Nat))
      (t : Nat) (cs : Option (List Nat)),
      checkExtentsLoop blockSize origLen usableSize allowPseudo allowSignature
        extents acc counters = .ok (t, cs) →
      t = acc + totalBlocks extents := by
  intro extents
  induction extents with
  | nil =>
      intro acc counters t cs h
      simp only [checkExtentsLoop] at h
      cases h
      simp [totalBlocks]
  | cons e rest ih =>
      intro acc counters t cs h
      simp only [checkExtentsLoop] at h
      cases hsb : e.start_block with
      | none => rw [hsb] at h; cases h
      | some startBlock =>
          rw [hsb] at h
          cases hnb : e.num_blocks with
          | none => rw [hnb] at h; cases h
          | some numBlocks =>
              rw [hnb] at h
              simp only at h
              split at h
              · cases h
              · split at h
                · split at h
                  · cases h
                  · split at h
                    · cases h
                    · rename_i c2 hr
                      have := ih (acc + numBlocks) c2 t cs h
                      subst this
                      simp [totalBlocks_cons, hnb]
                      omega
                · split at h
                  · cases h
                  · have := ih (acc + numBlocks) counters t cs h
                    subst this
                    simp [totalBlocks_cons, hnb]
                    omega

theorem checkExtentsLoop_bounds (blockSize origLen usableSize : Nat)
    (allowPseudo allowSignature : Bool) (husable : usableSize ≠ 0) :
    ∀ (extents : List Extent) (acc : Nat) (counters : Option (List Nat))
      (t : Nat) (cs : Option (List Nat)),
      checkExtentsLoop blockSize origLen usableSize allowPseudo allowSignature
        extents acc counters = .ok (t, cs) →
      ∀ e ∈ extents, ∀ s, e.start_block = some s → s ≠ PSEUDO_EXTENT_MARKER →
        ∃ n, e.num_blocks = some n ∧ 0 < n ∧ (s + n) * blockSize ≤ usableSize := by
  intro extents
  induction extents with
  | nil =>
      intro acc counters t cs _ e he
      cases he
  | cons e0 rest ih =>
      intro acc counters t cs h e he s hs hmark
      simp only [checkExtentsLoop] at h
      cases hsb : e0.start_block with
      | none => rw [hsb] at h; cases h
      | some startBlock =>
          rw [hsb] at h
          cases hnb : e0.num_blocks with
          | none => rw [hnb] at h; cases h
          | some numBlocks =>
              rw [hnb] at h
              simp only at h
              split at h
              · cases h
              · rename_i hzero
                split at h
                · rename_i hreal
                  split at h
                  · cases h
                  · rename_i hub
                    split at h
                    · cases h
                    · rename_i c2 hr
                      rcases List.mem_cons.mp he with he0 | herest
                      · subst he0
                        rw [hsb] at hs
                        cases hs
                        refine ⟨numBlocks, hnb, ?_, ?_⟩
                        · simp only [beq_iff_eq] at hzero
                          omega
                        · rw [Bool.not_eq_true, Bool.and_eq_false_iff] at hub
                          rcases hub with hub | hub
                          · simp only [bne_eq_false_iff_eq] at hub
                            exact absurd hub husable
                          · simp only [decide_eq_false_iff_not, not_lt] at hub
                            exact hub
                      · exact ih (acc + numBlocks) c2 t cs h e herest s hs hmark
                · rename_i hpseudo
                  split at h
                  · cases h
                  · rcases List.mem_cons.mp he with he0 | herest
                    · subst he0
                      rw [hsb] at hs
                      cases hs
                      rw [Bool.not_eq_true, bne_eq_false_iff_eq] at hpseudo
                      exact absurd hpseudo hmark
                    · exact ih (acc + numBlocks) counters t cs h e herest s hs hmark

theorem checkBlocksFitLength_ok (length numBlocks blockSize : Nat)
    (h : checkBlocksFitLength length numBlocks blockSize = .ok ()) :
    length ≤ numBlocks * blockSize ∧
      ((numBlocks : Int) - 1) * (blockSize : Int) < (length : Int) := by
  simp only [checkBlocksFitLength] at h
  split at h
  · cases h
  · split at h
    · cases h
    · rename_i h1 h2
      simp only [decide_eq_true_eq] at h1 h2
      omega

theorem blocksOf_nil : blocksOf [] = [] := rfl

theorem blocksOf_cons (e : Extent) (rest : List Extent) :
    blocksOf (e :: rest) =
      List.range' (e.start_block.getD 0) (e.num_blocks.getD 0) ++ blocksOf rest := by
  simp [blocksOf]

theorem blocksOf_length (extents : List Extent) :
    (blocksOf extents).length = totalBlocks extents := by
  induction extents with
  | nil => rfl
  | cons e rest ih =>
      rw [blocksOf_cons, List.length_append, List.length_range', ih,
        totalBlocks_cons]

theorem curBlocks_ite (x n : Nat) :
    curBlocks (if n == 0 then none else some (x, n)) = List.range' x n := by
  split
  · rename_i h
    simp only [beq_iff_eq] at h
    subst h
    rfl
  · rfl

theorem curBlocks_dite (x n : Nat) :
    curBlocks (if _h : (n == 0) = true then none else some (x, n)) =
      List.range' x n := by
  split
  · rename_i h
    simp only [beq_iff_eq] at h
    subst h
    rfl
  · rfl

theorem range'_split (s n a : Nat) (h : a ≤ n) :
    List.range' s n = List.range' s a ++ List.range' (s + a) (n - a) := by
  have h2 := List.range'_append s a (n - a) 1
  simp only [one_mul] at h2
  rw [show n - a + a = n by omega] at h2
  exact h2.symm

theorem range'_append_getElem_lt (s n : Nat) (L : List Nat) (k : Nat)
    (h : k < n) : (List.range' s n ++ L)[k]? = some (s + k) := by
  rw [List.getElem?_append]
  rw [List.length_range']
  simp only [h, if_true]
  have := List.getElem?_range' s 1 h
  simpa using this

/-- Success of the MOVE-check loop with the same-block check enabled means
every remaining position holds different logical src and dst block
numbers. -/
theorem moveLoop_pairwise (flag : Bool) (total i : Nat)
    (srcRest dstRest : List Extent) (srcCur dstCur : Option (Nat × Nat)) :
    moveLoop flag total i srcRest dstRest srcCur dstCur = .ok () →
    flag = true →
    ∀ k, k < total - i →
      ∃ a b, (curBlocks srcCur ++ blocksOf srcRest)[k]? = some a ∧
             (curBlocks dstCur ++ blocksOf dstRest)[k]? = some b ∧ a ≠ b := by
  refine moveLoop.induct flag total
    (motive := fun i srcRest dstRest srcCur dstCur =>
      moveLoop flag total i srcRest dstRest srcCur dstCur = .ok () →
      flag = true →
      ∀ k, k < total - i →
        ∃ a b, (curBlocks srcCur ++ blocksOf srcRest)[k]? = some a ∧
               (curBlocks dstCur ++ blocksOf dstRest)[k]? = some b ∧ a ≠ b)
    ?_ ?_ ?_ ?_ ?_ ?_ ?_ ?_ ?_ i srcRest dstRest srcCur dstCur
  · intro i dstRest dstCur hlt h
    rw [moveLoop.eq_def] at h
    rw [dif_pos hlt] at h
    exact Except.noConfusion h
  · intro i dstRest dstCur hlt e rest ih h hflag k hk
    rw [moveLoop.eq_def] at h
    rw [dif_pos hlt] at h
    have h2 : moveLoop flag total i rest dstRest
        (some (e.start_block.getD 0, e.num_blocks.getD 0)) dstCur =
        Except.ok () := h
    have := ih h2 hflag k hk
    rw [blocksOf_cons]
    simpa [curBlocks] using this
  · intro i srcRest hlt srcIdx srcNum h
    rw [moveLoop.eq_def] at h
    rw [dif_pos hlt] at h
    exact Except.noConfusion h
  · intro i srcRest hlt srcIdx srcNum e rest ih h hflag k hk
    rw [moveLoop.eq_def] at h
    rw [dif_pos hlt] at h
    have h2 : moveLoop flag total i srcRest rest (some (srcIdx, srcNum))
        (some (e.start_block.getD 0, e.num_blocks.getD 0)) =
        Except.ok () := h
    have := ih h2 hflag k hk
    rw [blocksOf_cons]
    simpa [curBlocks] using this
  · intro i srcRest dstRest hlt srcIdx srcNum dstIdx dstNum heq h
    rw [moveLoop.eq_def] at h
    rw [dif_pos hlt] at h
    have h2 : (if (flag && srcIdx == dstIdx) = true then
        (Except.error (CheckError.payloadError
          "op: src/dst block number is the same") : Except CheckError Unit)
      else moveLoop flag total (i + min srcNum dstNum) srcRest dstRest
        (if srcNum - min srcNum dstNum == 0 then none
         else some (srcIdx + min srcNum dstNum, srcNum - min srcNum dstNum))
        (if dstNum - min srcNum dstNum == 0 then none
         else some (dstIdx + min srcNum dstNum, dstNum - min srcNum dstNum))) =
        Except.ok () := h
    rw [if_pos heq] at h2
    exact Except.noConfusion h2
  · intro i srcRest dstRest hlt srcIdx srcNum dstIdx dstNum hne ih h hflag k hk
    subst hflag
    rw [moveLoop.eq_def] at h
    rw [dif_pos hlt] at h
    have h2 : (if (true && srcIdx == dstIdx) = true then
        (Except.error (CheckError.payloadError
          "op: src/dst block number is the same") : Except CheckError Unit)
      else moveLoop true total (i + min srcNum dstNum) srcRest dstRest
        (if srcNum - min srcNum dstNum == 0 then none
         else some (srcIdx + min srcNum dstNum, srcNum - min srcNum dstNum))
        (if dstNum - min srcNum dstNum == 0 then none
         else some (dstIdx + min srcNum dstNum, dstNum - min srcNum dstNum))) =
        Except.ok () := h
    rw [if_neg hne] at h2
    have hsd : srcIdx ≠ dstIdx := by
      intro hcontra
      subst hcontra
      simp at hne
    by_cases hka : k < min srcNum dstNum
    · refine ⟨srcIdx + k, dstIdx + k, ?_, ?_, ?_⟩
      · exact range'_append_getElem_lt srcIdx srcNum (blocksOf srcRest) k
          (lt_of_lt_of_le hka (Nat.min_le_left _ _))
      · exact range'_append_getElem_lt dstIdx dstNum (blocksOf dstRest) k
          (lt_of_lt_of_le hka (Nat.min_le_right _ _))
      · omega
    · have hk2 : k - min srcNum dstNum < total - (i + min srcNum dstNum) := by
        omega
      have := ih h2 rfl (k - min srcNum dstNum) hk2
      rw [curBlocks_dite, curBlocks_dite] at this
      rcases this with ⟨a, b, ha, hb, hab⟩
      refine ⟨a, b, ?_, ?_, hab⟩
      · rw [show (curBlocks (some (srcIdx, srcNum)) : List Nat) =
            List.range' srcIdx (min srcNum dstNum) ++
            List.range' (srcIdx + min srcNum dstNum)
              (srcNum - min srcNum dstNum) from
            range'_split srcIdx srcNum (min srcNum dstNum)
              (Nat.min_le_left _ _)]
        rw [List.append_assoc, List.getElem?_append, List.length_range']
        simp only [show ¬(k < min srcNum dstNum) from hka, if_false]
        exact ha
      · rw [show (curBlocks (some (dstIdx, dstNum)) : List Nat) =
            List.range' dstIdx (min srcNum dstNum) ++
            List.range' (dstIdx + min srcNum dstNum)
              (dstNum - min srcNum dstNum) from
            range'_split dstIdx dstNum (min srcNum dstNum)
              (Nat.min_le_right _ _)]
        rw [List.append_assoc, List.getElem?_append, List.length_range']
        simp only [show ¬(k < min srcNum dstNum) from hka, if_false]
        exact hb
  · intro i srcRest dstRest dstCur hge val _ _ k hk
    omega
  · intro i srcRest dstRest hge val _ _ k hk
    omega
  · intro i srcRest dstRest hge _ _ k hk
    omega

theorem checkPresentIff_ok {α β : Type} (a : Option α) (b : Option β)
    (h : checkPresentIff a b = .ok ()) : (a.isNone ↔ b.isNone) := by
  match a, b with
  | none, some _ => simp [checkPresentIff] at h
  | some _, none => simp [checkPresentIff] at h
  | none, none => simp
  | some _, some _ => simp

/-- Inversion of a successful `_CheckOperation`: all the intermediate checks
passed, the returned data amount is `data_length` (or 0), a present
`data_offset` equals the running offset, and the type-specific check
succeeded. -/
theorem checkOperation_ok_inv (ctx : CheckerCtx) (payload : Payload)
    (payloadType : PType) (op : Operation) (isLast : Bool)
    (oldBlockCounters newBlockCounters : Option (List Nat))
    (oldFsSize newUsableSize prevDataOffset : Nat) (allowSignature : Bool)
    (blobHashCounts : List (String × Nat)) (outc : OpOutcome)
    (h : checkOperation ctx payload payloadType op isLast oldBlockCounters
      newBlockCounters oldFsSize newUsableSize prevDataOffset allowSignature
      blobHashCounts = .ok outc) :
    ∃ totalSrcBlocks oldC2 totalDstBlocks newC2,
      checkExtents ctx.blockSize op.src_extents oldFsSize oldBlockCounters
        true false = .ok (totalSrcBlocks, oldC2) ∧
      checkExtents ctx.blockSize op.dst_extents newUsableSize
        newBlockCounters (!ctx.checkDstPseudoExtents)
        (allowSignature && isLast && (op.type == OpType.REPLACE)) =
        .ok (totalDstBlocks, newC2) ∧
      checkPresentIff op.data_offset op.data_length = .ok () ∧
      op.dst_extents.isEmpty = false ∧
      (∀ d, op.data_offset = some d → d = prevDataOffset) ∧
      ((op.type = OpType.REPLACE ∨ op.type = OpType.REPLACE_BZ) →
        checkReplaceOperation ctx.blockSize op op.data_length totalDstBlocks =
          .ok ()) ∧
      (op.type = OpType.MOVE →
        payloadType = PType.delta ∧
        checkMoveOperation ctx.checkMoveSameSrcDstBlock op op.data_offset
          totalSrcBlocks totalDstBlocks = .ok ()) ∧
      outc.dataUsed = op.data_length.getD 0 := by
  unfold checkOperation at h
  split at h
  · exact Except.noConfusion h
  · rename_i tSrc cSrc hsrc
    split at h
    · exact Except.noConfusion h
    · rename_i tDst cDst hdst
      split at h
      · exact Except.noConfusion h
      · rename_i hiff
        split at h
        · exact Except.noConfusion h
        · rename_i hempty
          split at h
          · exact Except.noConfusion h
          · split at h
            · exact Except.noConfusion h
            · split at h
              · exact Except.noConfusion h
              · rename_i bhc3 hbhc
                split at h
                · exact Except.noConfusion h
                · rename_i hoff
                  split at h
                  · exact Except.noConfusion h
                  · rename_i hdisp
                    cases h
                    refine ⟨tSrc, cSrc, tDst, cDst, hsrc, hdst, hiff,
                      by simpa using hempty, ?_, ?_, ?_, rfl⟩
                    · intro d hd
                      rcases hoffInv : op.data_offset with _ | dOff
                      · rw [hoffInv] at hd
                        cases hd
                      · rw [hoffInv] at hd
                        cases hd
                        rw [hoffInv] at hoff
                        have hoff2 : (if (d != prevDataOffset) = true then
                            (Except.error (CheckError.payloadError
                              "op: data offset not matching amount used so far") :
                              Except CheckError Unit)
                          else Except.ok ()) = Except.ok () := hoff
                        by_cases hne : (d != prevDataOffset) = true
                        · rw [if_pos hne] at hoff2
                          exact Except.noConfusion hoff2
                        · rw [Bool.not_eq_true, bne_eq_false_iff_eq] at hne
                          exact hne
                    · intro htype
                      have hcond : (op.type == OpType.REPLACE ||
                          op.type == OpType.REPLACE_BZ) = true := by
                        rcases htype with ht | ht <;> simp [ht]
                      rw [if_pos hcond] at hdisp
                      exact hdisp
                    · intro htype
                      have hcond : (op.type == OpType.REPLACE ||
                          op.type == OpType.REPLACE_BZ) = false := by
                        simp [htype, OpType.MOVE, OpType.REPLACE, OpType.REPLACE_BZ]
                      rw [hcond] at hdisp
                      simp only [Bool.false_eq_true, if_false] at hdisp
                      split at hdisp
                      · exact Except.noConfusion hdisp
                      · rename_i hfull
                        refine ⟨?_, ?_⟩
                        · cases payloadType
                          · simp at hfull
                          · rfl
                        · rw [if_pos (by simp [htype])] at hdisp
                          exact hdisp

theorem checkExtents_total (blockSize : Nat) (extents : List Extent)
    (usableSize : Nat) (counters : Option (List Nat))
    (allowPseudo allowSignature : Bool) (t : Nat) (cs : Option (List Nat))
    (h : checkExtents blockSize extents usableSize counters allowPseudo
      allowSignature = .ok (t, cs)) : t = totalBlocks extents := by
  have := checkExtentsLoop_total blockSize extents.length usableSize
    allowPseudo allowSignature extents 0 counters t cs h
  simpa using this

theorem checkReplaceOperation_ok (blockSize : Nat) (op : Operation)
    (dataLength : Option Nat) (totalDstBlocks : Nat)
    (htype : op.type = OpType.REPLACE)
    (h : checkReplaceOperation blockSize op dataLength totalDstBlocks = .ok ()) :
    op.src_extents = [] ∧ ∃ dl, dataLength = some dl ∧
      dl ≤ totalDstBlocks * blockSize ∧
      ((totalDstBlocks : Int) - 1) * (blockSize : Int) < (dl : Int) := by
  unfold checkReplaceOperation at h
  split at h
  · exact Except.noConfusion h
  · rename_i hsrc
    have hempty : op.src_extents = [] := by
      have hsrc2 : op.src_extents.isEmpty = true := by simpa using hsrc
      exact List.isEmpty_iff.mp hsrc2
    split at h
    · exact Except.noConfusion h
    · rename_i dl
      refine ⟨hempty, dl, rfl, ?_⟩
      rw [if_pos (by simp [htype])] at h
      exact checkBlocksFitLength_ok dl totalDstBlocks blockSize h

/-- C3 (amended form): every extent sequence accepted by `_CheckExtents`
with a nonzero `usable_size` argument only contains non-pseudo extents with
`num_blocks > 0` and `(start_block + num_blocks) * block_size ≤
usable_size`; with `usable_size = 0` the partition-limit check is skipped
(see the counterexample). -/
theorem c3_extent_bounds (blockSize : Nat) (extents : List Extent)
    (usableSize : Nat) (counters : Option (List Nat))
    (allowPseudo allowSignature : Bool) (t : Nat) (cs : Option (List Nat))
    (husable : usableSize ≠ 0)
    (h : checkExtents blockSize extents usableSize counters allowPseudo
      allowSignature = .ok (t, cs)) :
    ∀ e ∈ extents, ∀ s, e.start_block = some s → s ≠ PSEUDO_EXTENT_MARKER →
      ∃ n, e.num_blocks = some n ∧ 0 < n ∧ (s + n) * blockSize ≤ usableSize :=
  checkExtentsLoop_bounds blockSize extents.length usableSize allowPseudo
    allowSignature husable extents 0 counters t cs h

/-- C3 counterexample: with `usable_size = 0` (Python falsiness) the
partition-limit check is skipped entirely, so `_CheckExtents` accepts an
extent whose end exceeds the usable size — refuting the claim "for any
value of the usable_size argument". -/
theorem c3_counterexample :
    checkExtents 4096 [⟨some 0, some 1⟩] 0 (some [0]) false false =
      .ok (1, some [1]) ∧ ¬ ((0 + 1) * 4096 ≤ 0) := by
  constructor
  · rfl
  · decide

theorem c3_witness :
    (8192 : Nat) ≠ 0 ∧
    (∃ n, (some 1 : Option Nat) = some n ∧ 0 < n ∧ (0 + n) * 4096 ≤ 8192) := by
  refine ⟨by decide, ?_⟩
  exact c3_extent_bounds 4096 [⟨some 0, some 1⟩] 8192 (some [0, 0]) false false
    1 (some [1, 0]) (by decide) rfl ⟨some 0, some 1⟩ (by simp) 0 rfl (by decide)

/-- C7: a REPLACE operation is accepted by `_CheckOperation` only if it has
no src extents, carries `data_offset`/`data_length`, and its `data_length`
satisfies `(total_dst_blocks − 1) * block_size < data_length ≤
total_dst_blocks * block_size`, where `total_dst_blocks` counts the
`num_blocks` of pseudo-extents too. -/
theorem c7_replace_bounds (ctx : CheckerCtx) (payload : Payload)
    (payloadType : PType) (op : Operation) (isLast : Bool)
    (oldBlockCounters newBlockCounters : Option (List Nat))
    (oldFsSize newUsableSize prevDataOffset : Nat) (allowSignature : Bool)
    (blobHashCounts : List (String × Nat)) (outc : OpOutcome)
    (htype : op.type = OpType.REPLACE)
    (h : checkOperation ctx payload payloadType op isLast oldBlockCounters
      newBlockCounters oldFsSize newUsableSize prevDataOffset allowSignature
      blobHashCounts = .ok outc) :
    op.src_extents = [] ∧
    (∃ dOff, op.data_offset = some dOff) ∧
    ∃ dl, op.data_length = some dl ∧
      dl ≤ totalBlocks op.dst_extents * ctx.blockSize ∧
      ((totalBlocks op.dst_extents : Int) - 1) * (ctx.blockSize : Int) <
        (dl : Int) := by
  obtain ⟨tS, cS, tD, cD, hsrc, hdst, hiff, hempty, hoff, hrep, hmove, hdu⟩ :=
    checkOperation_ok_inv ctx payload payloadType op isLast oldBlockCounters
      newBlockCounters oldFsSize newUsableSize prevDataOffset allowSignature
      blobHashCounts outc h
  obtain ⟨hsrcE, dl, hdl, h1, h2⟩ :=
    checkReplaceOperation_ok ctx.blockSize op op.data_length tD htype
      (hrep (Or.inl htype))
  have htD : tD = totalBlocks op.dst_extents :=
    checkExtents_total ctx.blockSize op.dst_extents newUsableSize
      newBlockCounters (!ctx.checkDstPseudoExtents)
      (allowSignature && isLast && (op.type == OpType.REPLACE)) tD cD hdst
  have hoffPresent : ∃ dOff, op.data_offset = some dOff := by
    have hiff2 := checkPresentIff_ok op.data_offset op.data_length hiff
    rw [hdl] at hiff2
    rcases hcase : op.data_offset with _ | dOff
    · rw [hcase] at hiff2
      simp at hiff2
    · exact ⟨dOff, rfl⟩
  subst htD
  exact ⟨hsrcE, hoffPresent, dl, hdl, h1, h2⟩

theorem c7_witness :
    exOpReplace.src_extents = [] ∧
    (∃ dOff, exOpReplace.data_offset = some dOff) ∧
    ∃ dl, exOpReplace.data_length = some dl ∧
      dl ≤ totalBlocks exOpReplace.dst_extents * exCtx.blockSize ∧
      ((totalBlocks exOpReplace.dst_extents : Int) - 1) *
        (exCtx.blockSize : Int) < (dl : Int) :=
  c7_replace_bounds exCtx exPayload PType.full exOpReplace true none
    (some [0]) 0 4096 0 false [("hashed", 0), ("unhashed", 0)]
    ⟨4096, none, some [1], [("hashed", 0), ("unhashed", 1)]⟩ rfl rfl

/-- C8: `_CheckSha256Signature` succeeds exactly when the signature is 256
bytes and the plaintext recovered by the external RSA verifier has length
`len(SIG_ASN1_HEADER) + 32`, starts with `SIG_ASN1_HEADER`, and ends with
the expected 32-byte digest; every failure is a `PayloadError` (the
verifier's exit status is never consulted). -/
theorem c8_sha256_signature (ctx : CheckerCtx) (sigData : List Nat)
    (pubkeyFileName : String) (actualHash : List Nat) :
    (checkSha256Signature ctx sigData pubkeyFileName actualHash = .ok () ↔
      (sigData.length = 256 ∧
       (ctx.rsaVerify pubkeyFileName sigData).length =
         SIG_ASN1_HEADER.length + 32 ∧
       SIG_ASN1_HEADER.isPrefixOf (ctx.rsaVerify pubkeyFileName sigData) = true ∧
       (ctx.rsaVerify pubkeyFileName sigData).drop SIG_ASN1_HEADER.length =
         actualHash)) ∧
    (checkSha256Signature ctx sigData pubkeyFileName actualHash = .ok () ∨
     ∃ m, checkSha256Signature ctx sigData pubkeyFileName actualHash =
       .error (.payloadError m)) := by
  simp only [checkSha256Signature]
  split_ifs with h1 h2 h3 h4
  · simp only [bne_iff_ne, ne_eq] at h1
    constructor
    · constructor
      · intro hcontra
        exact hcontra.elim
      · intro ⟨hc, _⟩
        exact absurd hc h1
    · exact Or.inr ⟨_, rfl⟩
  · simp only [bne_iff_ne, ne_eq, not_not] at h1 h2
    constructor
    · constructor
      · intro hcontra
        exact hcontra.elim
      · intro ⟨_, hc, _⟩
        exact absurd hc h2
    · exact Or.inr ⟨_, rfl⟩
  · simp only [bne_iff_ne, ne_eq, not_not] at h1 h2
    have h3p : SIG_ASN1_HEADER.isPrefixOf (ctx.rsaVerify pubkeyFileName sigData)
        = false := by simpa using h3
    constructor
    · constructor
      · intro hcontra
        exact hcontra.elim
      · intro ⟨_, _, hc, _⟩
        rw [hc] at h3p
        exact Bool.noConfusion h3p
    · exact Or.inr ⟨_, rfl⟩
  · simp only [bne_iff_ne, ne_eq, not_not] at h1 h2 h4
    constructor
    · constructor
      · intro hcontra
        exact hcontra.elim
      · intro ⟨_, _, _, hc⟩
        exact absurd hc h4
    · exact Or.inr ⟨_, rfl⟩
  · simp only [bne_iff_ne, ne_eq, not_not] at h1 h2 h4
    have h3p : SIG_ASN1_HEADER.isPrefixOf (ctx.rsaVerify pubkeyFileName sigData)
        = true := by simpa using h3
    constructor
    · constructor
      · intro _
        exact ⟨h1, h2, h3p, h4⟩
      · intro _
        trivial
    · left
      trivial

theorem checkMoveOperation_ok (flag : Bool) (op : Operation)
    (dataOffset : Option Nat) (tS tD : Nat)
    (h : checkMoveOperation flag op dataOffset tS tD = .ok ()) :
    dataOffset = none ∧ tS = tD ∧
    moveLoop flag tS 0 op.src_extents op.dst_extents none none = .ok () := by
  unfold checkMoveOperation at h
  cases dataOffset with
  | some v => exact Except.noConfusion h
  | none =>
      have h2 : (if (tS != tD) = true then
          (Except.error (CheckError.payloadError
            "op: total src blocks != total dst blocks") :
            Except CheckError Unit)
        else moveLoop flag tS 0 op.src_extents op.dst_extents none none) =
          Except.ok () := h
      by_cases hne : (tS != tD) = true
      · rw [if_pos hne] at h2
        exact Except.noConfusion h2
      · rw [if_neg hne] at h2
        refine ⟨rfl, ?_, h2⟩
        simpa using hne

/-- C5: a MOVE operation accepted by `_CheckOperation` carries no
`data_offset`/`data_length`, its total source block count equals its total
destination block count, and — when the `move-same-src-dst-block` check is
enabled — the i-th logical source block number differs from the i-th
logical destination block number for every position i: the loop compares
block numbers only at the start of each `min(src_remaining,
dst_remaining)`-sized chunk, but both sides advance in lockstep inside a
chunk, so the start comparison covers every position. -/
theorem c5_move_accepted (ctx : CheckerCtx) (payload : Payload)
    (payloadType : PType) (op : Operation) (isLast : Bool)
    (oldBlockCounters newBlockCounters : Option (List Nat))
    (oldFsSize newUsableSize prevDataOffset : Nat) (allowSignature : Bool)
    (blobHashCounts : List (String × Nat)) (outc : OpOutcome)
    (htype : op.type = OpType.MOVE)
    (h : checkOperation ctx payload payloadType op isLast oldBlockCounters
      newBlockCounters oldFsSize newUsableSize prevDataOffset allowSignature
      blobHashCounts = .ok outc) :
    op.data_offset = none ∧ op.data_length = none ∧
    totalBlocks op.src_extents = totalBlocks op.dst_extents ∧
    (ctx.checkMoveSameSrcDstBlock = true →
      ∀ k, k < totalBlocks op.src_extents →
        ∃ a b, (blocksOf op.src_extents)[k]? = some a ∧
               (blocksOf op.dst_extents)[k]? = some b ∧ a ≠ b) := by
  obtain ⟨tS, cS, tD, cD, hsrc, hdst, hiff, hempty, hoff, hrep, hmove, hdu⟩ :=
    checkOperation_ok_inv ctx payload payloadType op isLast oldBlockCounters
      newBlockCounters oldFsSize newUsableSize prevDataOffset allowSignature
      blobHashCounts outc h
  obtain ⟨hpt, hmv⟩ := hmove htype
  obtain ⟨hdo, htseq, hloop⟩ :=
    checkMoveOperation_ok ctx.checkMoveSameSrcDstBlock op op.data_offset tS tD
      hmv
  have htS : tS = totalBlocks op.src_extents :=
    checkExtents_total ctx.blockSize op.src_extents oldFsSize
      oldBlockCounters true false tS cS hsrc
  have htD : tD = totalBlocks op.dst_extents :=
    checkExtents_total ctx.blockSize op.dst_extents newUsableSize
      newBlockCounters (!ctx.checkDstPseudoExtents)
      (allowSignature && isLast && (op.type == OpType.REPLACE)) tD cD hdst
  have hdl : op.data_length = none := by
    have hiff2 := checkPresentIff_ok op.data_offset op.data_length hiff
    rw [hdo] at hiff2
    cases hdlc : op.data_length with
    | none => rfl
    | some v =>
        rw [hdlc] at hiff2
        simp at hiff2
  refine ⟨hdo, hdl, by omega, ?_⟩
  intro hflag k hk
  have hp := moveLoop_pairwise ctx.checkMoveSameSrcDstBlock tS 0
    op.src_extents op.dst_extents none none hloop hflag k (by omega)
  simpa [curBlocks] using hp

theorem exMoveLoop_eval :
    moveLoop true 1 0 [⟨some 0, some 1⟩] [⟨some 1, some 1⟩] none none =
      .ok () := by
  have s1 : moveLoop true 1 0 [⟨some 0, some 1⟩] [⟨some 1, some 1⟩] none none
      = moveLoop true 1 0 [] [⟨some 1, some 1⟩] (some (0, 1)) none :=
    (moveLoop.eq_def true 1 0 [⟨some 0, some 1⟩] [⟨some 1, some 1⟩] none
      none).trans rfl
  have s2 : moveLoop true 1 0 [] [⟨some 1, some 1⟩] (some (0, 1)) none
      = moveLoop true 1 0 [] [] (some (0, 1)) (some (1, 1)) :=
    (moveLoop.eq_def true 1 0 [] [⟨some 1, some 1⟩] (some (0, 1)) none).trans
      rfl
  have s3 : moveLoop true 1 0 [] [] (some (0, 1)) (some (1, 1))
      = moveLoop true 1 1 [] [] none none :=
    (moveLoop.eq_def true 1 0 [] [] (some (0, 1)) (some (1, 1))).trans rfl
  have s4 : moveLoop true 1 1 [] [] none none = .ok () :=
    (moveLoop.eq_def true 1 1 [] [] none none).trans rfl
  exact s1.trans (s2.trans (s3.trans s4))

theorem exCheckOpMove_eval :
    checkOperation exCtx exPayload PType.delta exOpMove true (some [0, 0])
      (some [0, 0]) 8192 8192 0 false [("hashed", 0), ("unhashed", 0)] =
    .ok ⟨0, some [1, 0], some [0, 1], [("hashed", 0), ("unhashed", 0)]⟩ := by
  have e1 : checkOperation exCtx exPayload PType.delta exOpMove true
      (some [0, 0]) (some [0, 0]) 8192 8192 0 false
      [("hashed", 0), ("unhashed", 0)] =
      (match moveLoop true 1 0 [⟨some 0, some 1⟩] [⟨some 1, some 1⟩]
          none none with
       | .error e => (.error e : Except CheckError OpOutcome)
       | .ok () =>
           .ok ⟨0, some [1, 0], some [0, 1],
             [("hashed", 0), ("unhashed", 0)]⟩) := rfl
  rw [exMoveLoop_eval] at e1
  exact e1

theorem c5_witness :
    exOpMove.data_offset = none ∧ exOpMove.data_length = none ∧
    totalBlocks exOpMove.src_extents = totalBlocks exOpMove.dst_extents ∧
    (∃ a b, (blocksOf exOpMove.src_extents)[0]? = some a ∧
            (blocksOf exOpMove.dst_extents)[0]? = some b ∧ a ≠ b) := by
  have h := c5_move_accepted exCtx exPayload PType.delta exOpMove true
    (some [0, 0]) (some [0, 0]) 8192 8192 0 false
    [("hashed", 0), ("unhashed", 0)]
    ⟨0, some [1, 0], some [0, 1], [("hashed", 0), ("unhashed", 0)]⟩ rfl
    exCheckOpMove_eval
  exact ⟨h.1, h.2.1, h.2.2.1, h.2.2.2 rfl 0 (by decide)⟩

theorem checkOperation_dataUsed {ctx : CheckerCtx} {payload : Payload}
    {payloadType : PType} {op : Operation} {isLast : Bool}
    {oldC newC : Option (List Nat)} {oldFs newUs prev : Nat}
    {allowSig : Bool} {bhc : List (String × Nat)} {outc : OpOutcome}
    (h : checkOperation ctx payload payloadType op isLast oldC newC oldFs
      newUs prev allowSig bhc = .ok outc) :
    outc.dataUsed = dataLenD op := by
  obtain ⟨_, _, _, _, _, _, _, _, _, _, _, hdu⟩ :=
    checkOperation_ok_inv ctx payload payloadType op isLast oldC newC oldFs
      newUs prev allowSig bhc outc h
  exact hdu

theorem checkOperation_offset {ctx : CheckerCtx} {payload : Payload}
    {payloadType : PType} {op : Operation} {isLast : Bool}
    {oldC newC : Option (List Nat)} {oldFs newUs prev : Nat}
    {allowSig : Bool} {bhc : List (String × Nat)} {outc : OpOutcome}
    (h : checkOperation ctx payload payloadType op isLast oldC newC oldFs
      newUs prev allowSig bhc = .ok outc) :
    ∀ d, op.data_offset = some d → d = prev := by
  obtain ⟨_, _, _, _, _, _, _, _, hoff, _, _, _⟩ :=
    checkOperation_ok_inv ctx payload payloadType op isLast oldC newC oldFs
      newUs prev allowSig bhc outc h
  exact hoff

theorem checkOperationsLoop_total (ctx : CheckerCtx) (payload : Payload)
    (payloadType : PType) (oldFsSize newUsableSize prevDataOffset : Nat)
    (allowSignature : Bool) (totalLen : Nat) :
    ∀ (ops : List Operation) (st stF : OpsState),
      checkOperationsLoop ctx payload payloadType oldFsSize newUsableSize
        prevDataOffset allowSignature totalLen ops st = .ok stF →
      stF.totalDataUsed = st.totalDataUsed + (ops.map dataLenD).sum := by
  intro ops
  induction ops with
  | nil =>
      intro st stF h
      cases h
      simp
  | cons op rest ih =>
      intro st stF h
      unfold checkOperationsLoop at h
      split at h
      · exact Except.noConfusion h
      · split at h
        · exact Except.noConfusion h
        · split at h
          · exact Except.noConfusion h
          · rename_i outc hop
            have hdu : outc.dataUsed = dataLenD op := checkOperation_dataUsed hop
            split at h
            · split at h
              · exact Except.noConfusion h
              · have hrec := ih _ _ h
                rw [hrec]
                simp only [List.map_cons, List.sum_cons]
                omega
            · rename_i hz
              have hz2 : outc.dataUsed = 0 := by simpa using hz
              have hrec := ih _ _ h
              rw [hrec]
              simp only [List.map_cons, List.sum_cons]
              omega

theorem checkOperationsLoop_offsets (ctx : CheckerCtx) (payload : Payload)
    (payloadType : PType) (oldFsSize newUsableSize prevDataOffset : Nat)
    (allowSignature : Bool) (totalLen : Nat) :
    ∀ (ops : List Operation) (st stF : OpsState),
      checkOperationsLoop ctx payload payloadType oldFsSize newUsableSize
        prevDataOffset allowSignature totalLen ops st = .ok stF →
      ∀ k op d, ops[k]? = some op → op.data_offset = some d →
        d = prevDataOffset + st.totalDataUsed +
          ((ops.take k).map dataLenD).sum := by
  intro ops
  induction ops with
  | nil =>
      intro st stF _ k op d hk
      simp at hk
  | cons op0 rest ih =>
      intro st stF h k op d hk hd
      unfold checkOperationsLoop at h
      split at h
      · exact Except.noConfusion h
      · split at h
        · exact Except.noConfusion h
        · split at h
          · exact Except.noConfusion h
          · rename_i outc hop
            have hdu : outc.dataUsed = dataLenD op0 := checkOperation_dataUsed hop
            cases k with
            | zero =>
                simp only [List.getElem?_cons_zero, Option.some_inj] at hk
                subst hk
                have := checkOperation_offset hop d hd
                simpa using this
            | succ k0 =>
                simp only [List.getElem?_cons_succ] at hk
                have hsum : ∀ stRec : OpsState,
                    checkOperationsLoop ctx payload payloadType oldFsSize
                      newUsableSize prevDataOffset allowSignature totalLen
                      rest stRec = .ok stF →
                    stRec.totalDataUsed = st.totalDataUsed + dataLenD op0 →
                    d = prevDataOffset + st.totalDataUsed +
                      (((op0 :: rest).take (k0 + 1)).map dataLenD).sum := by
                  intro stRec hRec hTot
                  have := ih stRec stF hRec k0 op d hk hd
                  rw [this, hTot]
                  simp only [List.take_succ_cons, List.map_cons, List.sum_cons]
                  omega
                split at h
                · split at h
                  · exact Except.noConfusion h
                  · exact hsum _ h (by simp [hdu])
                · rename_i hz
                  have hz2 : outc.dataUsed = 0 := by simpa using hz
                  exact hsum _ h (by simp [hdu.symm.trans hz2])

theorem checkOperations_total (ctx : CheckerCtx) (payload : Payload)
    (payloadType : PType) (operations : List Operation) (report : Report)
    (oldFsSize newFsSize newUsableSize prevDataOffset : Nat)
    (allowSignature : Bool) (t : Nat) (rep2 : Report)
    (h : checkOperations ctx payload payloadType operations report oldFsSize
      newFsSize newUsableSize prevDataOffset allowSignature = (.ok t, rep2)) :
    t = (operations.map dataLenD).sum := by
  unfold checkOperations at h
  split at h
  · rw [Prod.mk.injEq] at h
    exact Except.noConfusion h.1
  · rename_i st hloop
    have ht : t = st.totalDataUsed := by
      repeat split at h
      all_goals
        by_cases hc : (payloadType == PType.full &&
          !histKeysExactlyOne (List.take (sizeToNumBlocks ctx.blockSize
            newFsSize) (st.newCounters.getD []))) = true
      all_goals first
        | rw [if_pos hc] at h
        | rw [if_neg hc] at h
      all_goals rw [Prod.mk.injEq] at h
      all_goals first
        | exact Except.noConfusion h.1
        | (injection h.1 with h2; exact h2.symm)
    have := checkOperationsLoop_total ctx payload payloadType oldFsSize
      newUsableSize prevDataOffset allowSignature operations.length
      operations _ st hloop
    rw [ht, this]
    simp [initOpsState]

theorem checkOperations_offsets (ctx : CheckerCtx) (payload : Payload)
    (payloadType : PType) (operations : List Operation) (report : Report)
    (oldFsSize newFsSize newUsableSize prevDataOffset : Nat)
    (allowSignature : Bool) (t : Nat) (rep2 : Report)
    (h : checkOperations ctx payload payloadType operations report oldFsSize
      newFsSize newUsableSize prevDataOffset allowSignature = (.ok t, rep2)) :
    ∀ k op d, operations[k]? = some op → op.data_offset = some d →
      d = prevDataOffset + ((operations.take k).map dataLenD).sum := by
  unfold checkOperations at h
  split at h
  · rw [Prod.mk.injEq] at h
    exact Except.noConfusion h.1
  · rename_i st hloop
    intro k op d hk hd
    have := checkOperationsLoop_offsets ctx payload payloadType oldFsSize
      newUsableSize prevDataOffset allowSignature operations.length
      operations _ st hloop k op d hk hd
    simpa [initOpsState] using this

theorem checkOperations_full_hist (ctx : CheckerCtx) (payload : Payload)
    (operations : List Operation) (report : Report)
    (oldFsSize newFsSize newUsableSize prevDataOffset : Nat)
    (allowSignature : Bool) (t : Nat) (rep2 : Report) (st : OpsState)
    (hloop : checkOperationsLoop ctx payload PType.full oldFsSize
      newUsableSize prevDataOffset allowSignature operations.length operations
      (initOpsState ctx.blockSize allowSignature oldFsSize newUsableSize) =
      .ok st)
    (h : checkOperations ctx payload PType.full operations report oldFsSize
      newFsSize newUsableSize prevDataOffset allowSignature = (.ok t, rep2)) :
    histKeysExactlyOne ((st.newCounters.getD []).take
      (sizeToNumBlocks ctx.blockSize newFsSize)) = true := by
  unfold checkOperations at h
  split at h
  · rw [Prod.mk.injEq] at h
    exact Except.noConfusion h.1
  · rename_i st' hloop2
    rw [hloop] at hloop2
    injection hloop2 with hst
    subst hst
    repeat split at h
    all_goals
      by_cases hc : (PType.full == PType.full &&
        !histKeysExactlyOne (List.take (sizeToNumBlocks ctx.blockSize
          newFsSize) (st.newCounters.getD []))) = true
    all_goals first
      | rw [if_pos hc] at h
      | rw [if_neg hc] at h
    all_goals rw [Prod.mk.injEq] at h
    all_goals first
      | exact Except.noConfusion h.1
      | simpa using hc

/-- C4: with payload type full, `_CheckOperations` succeeds only when, after
all operations have been processed, every counter in
`new_block_counters[0 : ceil(new_fs_size / block_size)]` is exactly 1 (the
write histogram — computed over the reported new size, not the usable
size — has key set exactly {1}). -/
theorem c4_full_write_once (ctx : CheckerCtx) (payload : Payload)
    (operations : List Operation) (report : Report)
    (oldFsSize newFsSize newUsableSize prevDataOffset : Nat)
    (allowSignature : Bool) (t : Nat) (st : OpsState)
    (hloop : checkOperationsLoop ctx payload PType.full oldFsSize
      newUsableSize prevDataOffset allowSignature operations.length operations
      (initOpsState ctx.blockSize allowSignature oldFsSize newUsableSize) =
      .ok st)
    (h : (checkOperations ctx payload PType.full operations report oldFsSize
      newFsSize newUsableSize prevDataOffset allowSignature).1 = .ok t) :
    histKeysExactlyOne ((st.newCounters.getD []).take
      (sizeToNumBlocks ctx.blockSize newFsSize)) = true ∧
    ((st.newCounters.getD []).take
      (sizeToNumBlocks ctx.blockSize newFsSize)).all (fun c => c == 1) =
      true := by
  rcases hpair : checkOperations ctx payload PType.full operations report
    oldFsSize newFsSize newUsableSize prevDataOffset allowSignature with
    ⟨res, rep2⟩
  rw [hpair] at h
  simp only at h
  subst h
  have hh := checkOperations_full_hist ctx payload operations report
    oldFsSize newFsSize newUsableSize prevDataOffset allowSignature t rep2 st
    hloop hpair
  refine ⟨hh, ?_⟩
  unfold histKeysExactlyOne at hh
  exact (Bool.and_eq_true _ _ ▸ hh).2

theorem c4_witness :
    histKeysExactlyOne (((some [1] : Option (List Nat)).getD []).take
      (sizeToNumBlocks 4096 4096)) = true ∧
    (((some [1] : Option (List Nat)).getD []).take
      (sizeToNumBlocks 4096 4096)).all (fun c => c == 1) = true := by
  have h := c4_full_write_once exCtx exPayload [exOpReplace] Report.empty
    0 4096 4096 0 false 4096
    ⟨4096, [(0, 1), (1, 0), (2, 0), (3, 0)], [(0, 4096), (1, 0), (3, 0)],
     [("hashed", 0), ("unhashed", 1)], none, some [1], 1⟩
    (by rfl) (by rfl)
  simpa [exCtx] using h

theorem run_ok_runCore (ctx : CheckerCtx) (payload : Payload)
    (assertType : Option PType) (pubkeyFileName : Option String)
    (metadataSig : Option (List Nat)) (rootfsPartSize kernelPartSize : Nat)
    (reportOut : Bool)
    (h : (run ctx payload assertType pubkeyFileName metadataSig
      rootfsPartSize kernelPartSize reportOut).1 = .ok ()) :
    (runCore ctx payload assertType pubkeyFileName metadataSig
      rootfsPartSize kernelPartSize).1 = .ok () := by
  unfold run at h
  rcases hrc : runCore ctx payload assertType pubkeyFileName metadataSig
    rootfsPartSize kernelPartSize with ⟨res, rep⟩
  rw [hrc] at h
  exact h

theorem andThen_ok_inv {α β : Type} {x : Except CheckError α × Report}
    {f : α → Report → Except CheckError β × Report} {b : β}
    (h : (andThen x f).1 = .ok b) :
    ∃ a rep, x = (.ok a, rep) ∧ (f a rep).1 = .ok b := by
  rcases x with ⟨res, rep⟩
  cases res with
  | error e => simp [andThen] at h
  | ok a => exact ⟨a, rep, rfl, h⟩

theorem runCore_ok_inv (ctx : CheckerCtx) (payload : Payload)
    (assertType : Option PType) (pubkeyFileName : Option String)
    (metadataSig : Option (List Nat)) (rootfsPartSize kernelPartSize : Nat)
    (h : (runCore ctx payload assertType pubkeyFileName metadataSig
      rootfsPartSize kernelPartSize).1 = .ok ()) :
    ∃ (mres : ManifestResult) (t1 t2 : Nat)
      (rep1 rep2 rep3 rep4 rep5 rep6 : Report),
      checkManifest ctx payload.manifest assertType rootfsPartSize
        kernelPartSize rep1 = (.ok mres, rep2) ∧
      checkOperations ctx payload mres.payloadType
        payload.manifest.install_operations rep3 mres.oldRootfsFsSize
        mres.newRootfsFsSize
        (partSizeOrDefault rootfsPartSize mres.newRootfsFsSize) 0 false =
        (.ok t1, rep4) ∧
      checkOperations ctx payload mres.payloadType
        payload.manifest.kernel_install_operations rep5 mres.oldKernelFsSize
        mres.newKernelFsSize
        (partSizeOrDefault kernelPartSize mres.newKernelFsSize) t1 true =
        (.ok t2, rep6) ∧
      payload.dataOffset + (t1 + t2) = payload.fileSize := by
  unfold runCore at h
  split at h
  · simp at h
  · split at h
    · simp at h
    · obtain ⟨mres, rep2, hman, h⟩ := andThen_ok_inv h
      obtain ⟨t1, rep4, hops1, h⟩ := andThen_ok_inv h
      obtain ⟨t2, rep6, hops2, h⟩ := andThen_ok_inv h
      by_cases hsz : (payload.dataOffset + (t1 + t2) !=
        payload.fileSize) = true
      · rw [if_pos hsz] at h
        simp at h
      · exact ⟨mres, t1, t2, _, _, _, _, _, _, hman, hops1, hops2,
          by simpa using hsz⟩

/-- C1: `Run` accepts a payload only if `payload.data_offset` plus the sum
of `data_length` over all data-bearing operations (rootfs, then kernel)
equals the payload file size obtained by seeking to the end of the payload
file; any other total makes `Run` fail. -/
theorem c1_used_payload_size (ctx : CheckerCtx) (payload : Payload)
    (assertType : Option PType) (pubkeyFileName : Option String)
    (metadataSig : Option (List Nat)) (rootfsPartSize kernelPartSize : Nat)
    (reportOut : Bool)
    (h : (run ctx payload assertType pubkeyFileName metadataSig
      rootfsPartSize kernelPartSize reportOut).1 = .ok ()) :
    payload.dataOffset +
      (((payload.manifest.install_operations ++
         payload.manifest.kernel_install_operations).map dataLenD).sum) =
      payload.fileSize := by
  have hcore := run_ok_runCore ctx payload assertType pubkeyFileName
    metadataSig rootfsPartSize kernelPartSize reportOut h
  obtain ⟨mres, t1, t2, rep1, rep2, rep3, rep4, rep5, rep6, hman, hops1,
    hops2, hsize⟩ := runCore_ok_inv ctx payload assertType pubkeyFileName
    metadataSig rootfsPartSize kernelPartSize hcore
  have e1 := checkOperations_total ctx payload mres.payloadType
    payload.manifest.install_operations rep3 mres.oldRootfsFsSize
    mres.newRootfsFsSize (partSizeOrDefault rootfsPartSize
    mres.newRootfsFsSize) 0 false t1 rep4 hops1
  have e2 := checkOperations_total ctx payload mres.payloadType
    payload.manifest.kernel_install_operations rep5 mres.oldKernelFsSize
    mres.newKernelFsSize (partSizeOrDefault kernelPartSize
    mres.newKernelFsSize) t1 true t2 rep6 hops2
  rw [List.map_append, List.sum_append]
  omega

theorem c1_witness :
    (run exCtx exPayload none none none 0 0 false).1 = .ok () ∧
    exPayload.dataOffset +
      (((exPayload.manifest.install_operations ++
         exPayload.manifest.kernel_install_operations).map dataLenD).sum) =
      exPayload.fileSize :=
  ⟨by rfl, c1_used_payload_size exCtx exPayload none none none 0 0 false
    (by rfl)⟩

/-- C6: when `Run` accepts, every data-bearing operation — rootfs
operations followed by kernel operations, checked with a single advancing
cursor — has `data_offset` equal to the sum of `data_length` over all
earlier operations of the combined sequence. -/
theorem c6_data_offset_contiguity (ctx : CheckerCtx) (payload : Payload)
    (assertType : Option PType) (pubkeyFileName : Option String)
    (metadataSig : Option (List Nat)) (rootfsPartSize kernelPartSize : Nat)
    (reportOut : Bool)
    (h : (run ctx payload assertType pubkeyFileName metadataSig
      rootfsPartSize kernelPartSize reportOut).1 = .ok ()) :
    ∀ k op d,
      (payload.manifest.install_operations ++
        payload.manifest.kernel_install_operations)[k]? = some op →
      op.data_offset = some d →
      d = (((payload.manifest.install_operations ++
        payload.manifest.kernel_install_operations).take k).map dataLenD).sum
      := by
  have hcore := run_ok_runCore ctx payload assertType pubkeyFileName
    metadataSig rootfsPartSize kernelPartSize reportOut h
  obtain ⟨mres, t1, t2, rep1, rep2, rep3, rep4, rep5, rep6, hman, hops1,
    hops2, hsize⟩ := runCore_ok_inv ctx payload assertType pubkeyFileName
    metadataSig rootfsPartSize kernelPartSize hcore
  intro k op d hk hd
  have e1 := checkOperations_total ctx payload mres.payloadType
    payload.manifest.install_operations rep3 mres.oldRootfsFsSize
    mres.newRootfsFsSize (partSizeOrDefault rootfsPartSize
    mres.newRootfsFsSize) 0 false t1 rep4 hops1
  rw [List.take_append_eq_append_take, List.map_append, List.sum_append]
  by_cases hlt : k < payload.manifest.install_operations.length
  · rw [List.getElem?_append] at hk
    rw [if_pos hlt] at hk
    have := checkOperations_offsets ctx payload mres.payloadType
      payload.manifest.install_operations rep3 mres.oldRootfsFsSize
      mres.newRootfsFsSize (partSizeOrDefault rootfsPartSize
      mres.newRootfsFsSize) 0 false t1 rep4 hops1 k op d hk hd
    rw [show k - payload.manifest.install_operations.length = 0 by omega]
    simpa using this
  · rw [List.getElem?_append] at hk
    rw [if_neg hlt] at hk
    have := checkOperations_offsets ctx payload mres.payloadType
      payload.manifest.kernel_install_operations rep5 mres.oldKernelFsSize
      mres.newKernelFsSize (partSizeOrDefault kernelPartSize
      mres.newKernelFsSize) t1 true t2 rep6 hops2
      (k - payload.manifest.install_operations.length) op d hk hd
    rw [List.take_of_length_le (by omega), this, e1]

theorem c6_witness :
    (run exCtx exPayload none none none 0 0 false).1 = .ok () ∧
    (4096 : Nat) =
      (((exPayload.manifest.install_operations ++
        exPayload.manifest.kernel_install_operations).take 1).map
        dataLenD).sum :=
  ⟨by rfl, c6_data_offset_contiguity exCtx exPayload none none none 0 0 false
    (by rfl) 1 exOpKernel 4096 (by rfl) (by rfl)⟩

/-- C2 (code bug): `Run` does not always fail with a `PayloadError`.  On a
full payload whose REPLACE operation carries a real src extent,
`_CheckExtents` runs on the absent (`None`) old-partition block counters
before `_CheckReplaceOperation` can reject the extra src extents, and
`block_counters[i] += 1` raises a `TypeError` that escapes `Run`. -/
theorem c2_typeerror_escape :
    run exCtx exPayloadBadSrc none none none 0 0 false =
      (.error (.typeError "NoneType object does not support item assignment"),
       []) := rfl

/-- C9 counterexample: when `Run` aborts before adding any report node
(here: a metadata signature is supplied without a public key), the dump
still runs (an output sink was supplied) but writes nothing — in
particular the output does not end with the `(incomplete report)` line,
because `Dump` appends the marker only when there is at least one report
line. -/
theorem c9_counterexample :
    (run exCtx exPayload none none (some [1, 2, 3]) 0 0 true).1 =
      .error (.payloadError
        "no public key provided, cannot verify metadata signature") ∧
    (run exCtx exPayload none none (some [1, 2, 3]) 0 0 true).2 = [] ∧
    (run exCtx exPayload none none (some [1, 2, 3]) 0 0 true).2.getLast? ≠
      some "(incomplete report)\n" := by
  have hrc : runCore exCtx exPayload none none (some [1, 2, 3]) 0 0 =
      (.error (.payloadError
        "no public key provided, cannot verify metadata signature"),
       Report.empty) := rfl
  have hrun : run exCtx exPayload none none (some [1, 2, 3]) 0 0 true =
      (.error (.payloadError
        "no public key provided, cannot verify metadata signature"),
       Report.empty.dumpLines 0 2) := by
    unfold run
    rw [hrc]
    rfl
  have hdump : Report.empty.dumpLines 0 2 = [] := by
    simp [Report.dumpLines, Report.generateLines, renderGo, Report.empty]
  rw [hrun, hdump]
  exact ⟨rfl, rfl, by simp⟩

/-- C9 (amended): whenever `Dump` runs before `Finalize` and the report has
produced at least one line, the dumped output ends with the
`(incomplete report)` line; and `Run` invokes the dump on every exit path
when a report sink is supplied.  A node-less report (possible only when
`Run` aborts in the metadata-signature pre-check, before the header
section is added) dumps nothing at all. -/
theorem c9_incomplete_marker :
    (∀ r : Report, r.finalized = false → r.generateLines 0 2 ≠ [] →
      (r.dumpLines 0 2).getLast? = some "(incomplete report)\n") ∧
    (∀ (ctx : CheckerCtx) (payload : Payload) (assertType : Option PType)
      (pubkeyFileName : Option String) (metadataSig : Option (List Nat))
      (rootfsPartSize kernelPartSize : Nat),
      (run ctx payload assertType pubkeyFileName metadataSig rootfsPartSize
        kernelPartSize true).2 =
      ((runCore ctx payload assertType pubkeyFileName metadataSig
        rootfsPartSize kernelPartSize).2).dumpLines 0 2) := by
  constructor
  · intro r hfin hne
    have h1 : (r.generateLines 0 2).isEmpty = false := by
      rcases hgen : r.generateLines 0 2 with _ | ⟨a, as⟩
      · exact absurd hgen hne
      · rfl
    simp only [Report.dumpLines]
    rw [h1, hfin]
    simp
  · intro ctx payload assertType pubkeyFileName metadataSig rootfsPartSize
      kernelPartSize
    unfold run
    rcases hrc : runCore ctx payload assertType pubkeyFileName metadataSig
      rootfsPartSize kernelPartSize with ⟨res, rep⟩
    simp

theorem c9_witness :
    ((Report.empty.addSection "header").dumpLines 0 2).getLast? =
      some "(incomplete report)\n" := by
  refine c9_incomplete_marker.1 (Report.empty.addSection "header") rfl ?_
  simp [Report.generateLines, renderGo, Report.empty, Report.addSection,
    maxFieldLen, indentLine, spaces]

theorem payload_ne_keyError {α : Type} (msg m : String) :
    (Except.error (CheckError.payloadError msg) : Except CheckError α) ≠
      .error (.keyError m) := by
  simp

theorem bumpBlock_no_keyError (cs : List Nat) (i : Nat) :
    ∀ m, bumpBlock cs i ≠ .error (.keyError m) := by
  intro m
  unfold bumpBlock
  split
  · simp
  · split
    · simp
    · simp

theorem bumpCounters_no_keyError (c : Option (List Nat)) (i : Nat) :
    ∀ m, bumpCounters c i ≠ .error (.keyError m) := by
  intro m h
  unfold bumpCounters at h
  split at h
  · simp at h
  · rename_i cs
    split at h
    · rename_i e he
      injection h with h2
      subst h2
      exact bumpBlock_no_keyError cs i m he
    · simp at h

theorem bumpRange_no_keyError (c : Option (List Nat)) (s : Nat) :
    ∀ n m, bumpRange c s n ≠ .error (.keyError m) := by
  intro n
  induction n generalizing c s with
  | zero =>
      intro m h
      simp [bumpRange] at h
  | succ k ih =>
      intro m h
      unfold bumpRange at h
      split at h
      · rename_i e he
        injection h with h2
        subst h2
        exact bumpCounters_no_keyError c s m he
      · rename_i c2 he
        exact ih c2 (s + 1) m h

theorem checkExtentsLoop_no_keyError (blockSize origLen usableSize : Nat)
    (ap as : Bool) :
    ∀ (exts : List Extent) (acc : Nat) (counters : Option (List Nat)) m,
      checkExtentsLoop blockSize origLen usableSize ap as exts acc counters ≠
        .error (.keyError m) := by
  intro exts
  induction exts with
  | nil =>
      intro acc c m h
      simp [checkExtentsLoop] at h
  | cons e rest ih =>
      intro acc c m h
      simp only [checkExtentsLoop] at h
      cases hsb : e.start_block <;> rw [hsb] at h
      · simp at h
      · cases hnb : e.num_blocks <;> rw [hnb] at h
        · simp at h
        · simp only at h
          split at h
          · simp at h
          · split at h
            · split at h
              · simp at h
              · split at h
                · rename_i err hr
                  injection h with h2
                  subst h2
                  exact bumpRange_no_keyError c _ _ m hr
                · rename_i c2 hr
                  exact ih _ c2 m h
            · split at h
              · simp at h
              · exact ih _ c m h

theorem checkExtents_no_keyError (blockSize : Nat) (extents : List Extent)
    (usableSize : Nat) (counters : Option (List Nat)) (ap as : Bool) :
    ∀ m, checkExtents blockSize extents usableSize counters ap as ≠
      .error (.keyError m) :=
  fun m => checkExtentsLoop_no_keyError blockSize extents.length usableSize
    ap as extents 0 counters m

theorem moveLoop_no_keyError (flag : Bool) (total i : Nat)
    (srcRest dstRest : List Extent) (srcCur dstCur : Option (Nat × Nat)) :
    ∀ m, moveLoop flag total i srcRest dstRest srcCur dstCur ≠
      .error (.keyError m) := by
  refine moveLoop.induct flag total
    (motive := fun i srcRest dstRest srcCur dstCur =>
      ∀ m, moveLoop flag total i srcRest dstRest srcCur dstCur ≠
        .error (.keyError m))
    ?_ ?_ ?_ ?_ ?_ ?_ ?_ ?_ ?_ i srcRest dstRest srcCur dstCur
  · intro i dstRest dstCur hlt m h
    rw [moveLoop.eq_def] at h
    rw [dif_pos hlt] at h
    exact payload_ne_keyError _ m h
  · intro i dstRest dstCur hlt e rest ih m h
    rw [moveLoop.eq_def] at h
    rw [dif_pos hlt] at h
    exact ih m h
  · intro i srcRest hlt srcIdx srcNum m h
    rw [moveLoop.eq_def] at h
    rw [dif_pos hlt] at h
    exact payload_ne_keyError _ m h
  · intro i srcRest hlt srcIdx srcNum e rest ih m h
    rw [moveLoop.eq_def] at h
    rw [dif_pos hlt] at h
    exact ih m h
  · intro i srcRest dstRest hlt srcIdx srcNum dstIdx dstNum heq m h
    rw [moveLoop.eq_def] at h
    rw [dif_pos hlt] at h
    have h2 : (if (flag && srcIdx == dstIdx) = true then
        (Except.error (CheckError.payloadError
          "op: src/dst block number is the same") : Except CheckError Unit)
      else moveLoop flag total (i + min srcNum dstNum) srcRest dstRest
        (if srcNum - min srcNum dstNum == 0 then none
         else some (srcIdx + min srcNum dstNum, srcNum - min srcNum dstNum))
        (if dstNum - min srcNum dstNum == 0 then none
         else some (dstIdx + min srcNum dstNum, dstNum - min srcNum dstNum))) =
        .error (.keyError m) := h
    rw [if_pos heq] at h2
    exact payload_ne_keyError _ m h2
  · intro i srcRest dstRest hlt srcIdx srcNum dstIdx dstNum hne ih m h
    rw [moveLoop.eq_def] at h
    rw [dif_pos hlt] at h
    have h2 : (if (flag && srcIdx == dstIdx) = true then
        (Except.error (CheckError.payloadError
          "op: src/dst block number is the same") : Except CheckError Unit)
      else moveLoop flag total (i + min srcNum dstNum) srcRest dstRest
        (if srcNum - min srcNum dstNum == 0 then none
         else some (srcIdx + min srcNum dstNum, srcNum - min srcNum dstNum))
        (if dstNum - min srcNum dstNum == 0 then none
         else some (dstIdx + min srcNum dstNum, dstNum - min srcNum dstNum))) =
        .error (.keyError m) := h
    rw [if_neg hne] at h2
    exact ih m h2
  · intro i srcRest dstRest dstCur hge val m h
    rw [moveLoop.eq_def] at h
    rw [dif_neg hge] at h
    exact payload_ne_keyError _ m h
  · intro i srcRest dstRest hge val m h
    rw [moveLoop.eq_def] at h
    rw [dif_neg hge] at h
    exact payload_ne_keyError _ m h
  · intro i srcRest dstRest hge m h
    rw [moveLoop.eq_def] at h
    rw [dif_neg hge] at h
    exact Except.noConfusion h

theorem checkMoveOperation_no_keyError (flag : Bool) (op : Operation)
    (dataOffset : Option Nat) (tS tD : Nat) :
    ∀ m, checkMoveOperation flag op dataOffset tS tD ≠
      .error (.keyError m) := by
  intro m h
  unfold checkMoveOperation at h
  cases dataOffset with
  | some v => exact payload_ne_keyError _ m h
  | none =>
      have h2 : (if (tS != tD) = true then
          (Except.error (CheckError.payloadError
            "op: total src blocks != total dst blocks") :
            Except CheckError Unit)
        else moveLoop flag tS 0 op.src_extents op.dst_extents none none) =
          .error (.keyError m) := h
      by_cases hne : (tS != tD) = true
      · rw [if_pos hne] at h2
        exact payload_ne_keyError _ m h2
      · rw [if_neg hne] at h2
        exact moveLoop_no_keyError flag tS 0 op.src_extents op.dst_extents
          none none m h2

theorem checkBlocksFitLength_no_keyError (length numBlocks blockSize : Nat) :
    ∀ m, checkBlocksFitLength length numBlocks blockSize ≠
      .error (.keyError m) := by
  intro m
  unfold checkBlocksFitLength
  split
  · simp
  · split
    · simp
    · simp

theorem checkLength_no_keyError (length totalBlocks blockSize : Nat) :
    ∀ m, checkLength length totalBlocks blockSize ≠
      .error (.keyError m) := by
  intro m
  unfold checkLength
  split
  · simp
  · exact checkBlocksFitLength_no_keyError length totalBlocks blockSize m

theorem checkReplaceOperation_no_keyError (blockSize : Nat) (op : Operation)
    (dataLength : Option Nat) (totalDstBlocks : Nat) :
    ∀ m, checkReplaceOperation blockSize op dataLength totalDstBlocks ≠
      .error (.keyError m) := by
  intro m h
  unfold checkReplaceOperation at h
  split at h
  · simp at h
  · split at h
    · simp at h
    · rename_i dl
      split at h
      · exact checkBlocksFitLength_no_keyError dl totalDstBlocks blockSize m h
      · split at h
        · simp at h
        · simp at h

theorem checkBsdiffOperation_no_keyError (blockSize : Nat)
    (dataLength : Option Nat) (totalDstBlocks : Nat) :
    ∀ m, checkBsdiffOperation blockSize dataLength totalDstBlocks ≠
      .error (.keyError m) := by
  intro m h
  unfold checkBsdiffOperation at h
  split at h
  · simp at h
  · split at h
    · simp at h
    · simp at h

theorem checkPresentIff_no_keyError {α β : Type} (a : Option α)
    (b : Option β) :
    ∀ m, checkPresentIff a b ≠ .error (.keyError m) := by
  intro m
  rcases a with _ | x <;> rcases b with _ | y <;> simp [checkPresentIff]

theorem hasKey_incr_map [BEq α] (d : List (α × Nat)) (k k' : α) (v : Nat) :
    hasKey (d.map (fun p => if p.1 == k then (p.1, p.2 + v) else p)) k' =
      hasKey d k' := by
  induction d with
  | nil => rfl
  | cons p rest ih =>
      simp only [List.map_cons, hasKey, List.any_cons] at *
      have h1 : ((if p.1 == k then (p.1, p.2 + v) else p)).1 = p.1 := by
        split <;> rfl
      rw [h1, ih]

theorem dictIncr_ok_of_hasKey [BEq α] (d : List (α × Nat)) (k : α) (v : Nat)
    (h : hasKey d k = true) : ∃ d', dictIncr d k v = .ok d' := by
  unfold dictIncr
  rw [if_pos h]
  exact ⟨_, rfl⟩

theorem dictIncr_hasKey [BEq α] {d d' : List (α × Nat)} {k : α} {v : Nat}
    (h : dictIncr d k v = .ok d') : ∀ k', hasKey d' k' = hasKey d k' := by
  intro k'
  unfold dictIncr at h
  split at h
  · injection h with h2
    subst h2
    exact hasKey_incr_map d k k' v
  · exact Except.noConfusion h

theorem checkOperation_move_dataUsed {ctx : CheckerCtx} {payload : Payload}
    {payloadType : PType} {op : Operation} {isLast : Bool}
    {oldC newC : Option (List Nat)} {oldFs newUs prev : Nat}
    {allowSig : Bool} {bhc : List (String × Nat)} {outc : OpOutcome}
    (htype : op.type = OpType.MOVE)
    (h : checkOperation ctx payload payloadType op isLast oldC newC oldFs
      newUs prev allowSig bhc = .ok outc) :
    outc.dataUsed = 0 := by
  obtain ⟨tS, cS, tD, cD, hsrc, hdst, hiff, hempty, hoff, hrep, hmove, hdu⟩ :=
    checkOperation_ok_inv ctx payload payloadType op isLast oldC newC oldFs
      newUs prev allowSig bhc outc h
  obtain ⟨hpt, hmv⟩ := hmove htype
  obtain ⟨hdo, _, _⟩ :=
    checkMoveOperation_ok ctx.checkMoveSameSrcDstBlock op op.data_offset tS tD
      hmv
  have hiff2 := checkPresentIff_ok op.data_offset op.data_length hiff
  rw [hdo] at hiff2
  cases hdlc : op.data_length with
  | none =>
      rw [hdu]
      simp only [dataLenD, hdlc, Option.getD_none]
  | some v =>
      rw [hdlc] at hiff2
      simp at hiff2

theorem checkOperation_keys {ctx : CheckerCtx} {payload : Payload}
    {payloadType : PType} {op : Operation} {isLast : Bool}
    {oldC newC : Option (List Nat)} {oldFs newUs prev : Nat}
    {allowSig : Bool} {bhc : List (String × Nat)} {outc : OpOutcome}
    (h : checkOperation ctx payload payloadType op isLast oldC newC oldFs
      newUs prev allowSig bhc = .ok outc) :
    ∀ k, hasKey outc.blobHashCounts k = hasKey bhc k := by
  intro k
  unfold checkOperation at h
  split at h
  · exact Except.noConfusion h
  · split at h
    · exact Except.noConfusion h
    · split at h
      · exact Except.noConfusion h
      · split at h
        · exact Except.noConfusion h
        · split at h
          · exact Except.noConfusion h
          · split at h
            · exact Except.noConfusion h
            · split at h
              · exact Except.noConfusion h
              · rename_i bhc3 hbhc
                split at h
                · exact Except.noConfusion h
                · split at h
                  · exact Except.noConfusion h
                  · cases h
                    split at hbhc
                    · split at hbhc
                      · exact Except.noConfusion hbhc
                      · rename_i bhc2 hinc
                        split at hbhc
                        · exact Except.noConfusion hbhc
                        · split at hbhc
                          · exact Except.noConfusion hbhc
                          · injection hbhc with h2
                            subst h2
                            exact dictIncr_hasKey hinc k
                        · exact Except.noConfusion hbhc
                    · split at hbhc
                      · split at hbhc
                        · exact dictIncr_hasKey hbhc k
                        · split at hbhc
                          · exact dictIncr_hasKey hbhc k
                          · exact Except.noConfusion hbhc
                      · injection hbhc with h2
                        subst h2
                        rfl

theorem checkOperation_no_keyError {ctx : CheckerCtx} {payload : Payload}
    {payloadType : PType} {op : Operation} {isLast : Bool}
    {oldC newC : Option (List Nat)} {oldFs newUs prev : Nat}
    {allowSig : Bool} {bhc : List (String × Nat)}
    (hh : hasKey bhc "hashed" = true) (hu : hasKey bhc "unhashed" = true)
    (hs : allowSig = true → hasKey bhc "signature" = true) :
    ∀ m, checkOperation ctx payload payloadType op isLast oldC newC oldFs
      newUs prev allowSig bhc ≠ .error (.keyError m) := by
  intro m h
  unfold checkOperation at h
  split at h
  · rename_i e he
    injection h with h2
    subst h2
    exact checkExtents_no_keyError _ _ _ _ _ _ m he
  · split at h
    · rename_i e he
      injection h with h2
      subst h2
      exact checkExtents_no_keyError _ _ _ _ _ _ m he
    · split at h
      · rename_i e he
        injection h with h2
        subst h2
        exact checkPresentIff_no_keyError _ _ m he
      · split at h
        · simp at h
        · split at h
          · rename_i e he
            injection h with h2
            subst h2
            split at he
            · exact checkLength_no_keyError _ _ _ m he
            · simp at he
          · split at h
            · rename_i e he
              injection h with h2
              subst h2
              split at he
              · exact checkLength_no_keyError _ _ _ m he
              · simp at he
            · split at h
              · rename_i e he
                injection h with h2
                subst h2
                split at he
                · split at he
                  · rename_i e2 hinc
                    injection he with h3
                    subst h3
                    obtain ⟨d2, hd2⟩ := dictIncr_ok_of_hasKey bhc "hashed" 1 hh
                    rw [hd2] at hinc
                    exact Except.noConfusion hinc
                  · split at he
                    · simp at he
                    · split at he
                      · simp at he
                      · simp at he
                    · simp at he
                · split at he
                  · split at he
                    · rename_i hasie
                      have ha : allowSig = true := by
                        simp only [Bool.and_eq_true] at hasie
                        exact hasie.1.1
                      obtain ⟨d2, hd2⟩ :=
                        dictIncr_ok_of_hasKey bhc "signature" 1 (hs ha)
                      rw [hd2] at he
                      exact Except.noConfusion he
                    · split at he
                      · obtain ⟨d2, hd2⟩ :=
                          dictIncr_ok_of_hasKey bhc "unhashed" 1 hu
                        rw [hd2] at he
                        exact Except.noConfusion he
                      · simp at he
                  · simp at he
              · split at h
                · rename_i e he
                  injection h with h2
                  subst h2
                  split at he
                  · split at he
                    · simp at he
                    · simp at he
                  · simp at he
                · split at h
                  · rename_i e he
                    injection h with h2
                    subst h2
                    split at he
                    · exact checkReplaceOperation_no_keyError _ _ _ _ m he
                    · split at he
                      · simp at he
                      · split at he
                        · exact checkMoveOperation_no_keyError _ _ _ _ _ m he
                        · split at he
                          · exact checkBsdiffOperation_no_keyError _ _ _ m he
                          · simp at he
                  · simp at h

theorem checkOperationsLoop_no_keyError (ctx : CheckerCtx) (payload : Payload)
    (payloadType : PType) (oldFsSize newUsableSize prevDataOffset : Nat)
    (allowSignature : Bool) (totalLen : Nat) :
    ∀ (ops : List Operation) (st : OpsState),
      hasKey st.blobHashCounts "hashed" = true →
      hasKey st.blobHashCounts "unhashed" = true →
      (allowSignature = true → hasKey st.blobHashCounts "signature" = true) →
      hasKey st.opBlobTotals OpType.REPLACE = true →
      hasKey st.opBlobTotals OpType.REPLACE_BZ = true →
      hasKey st.opBlobTotals OpType.BSDIFF = true →
      (∀ kk, hasKey st.opCounts kk = true →
        kk = OpType.REPLACE ∨ kk = OpType.REPLACE_BZ ∨ kk = OpType.MOVE ∨
        kk = OpType.BSDIFF) →
      ∀ m, checkOperationsLoop ctx payload payloadType oldFsSize newUsableSize
        prevDataOffset allowSignature totalLen ops st ≠
        .error (.keyError m) := by
  intro ops
  induction ops with
  | nil =>
      intro st _ _ _ _ _ _ _ m h
      simp [checkOperationsLoop] at h
  | cons op rest ih =>
      intro st hh hu hsg b0 b1 b3 hoc m h
      unfold checkOperationsLoop at h
      split at h
      · simp at h
      · rename_i htype
        have hk : hasKey st.opCounts op.type = true := by
          simpa using htype
        split at h
        · rename_i e he
          obtain ⟨d2, hd2⟩ := dictIncr_ok_of_hasKey st.opCounts op.type 1 hk
          rw [hd2] at he
          exact Except.noConfusion he
        · rename_i oc2 hocInc
          split at h
          · rename_i e he
            injection h with h2
            subst h2
            exact checkOperation_no_keyError hh hu hsg m he
          · rename_i outc hop
            have hkeys := checkOperation_keys hop
            split at h
            · rename_i hnz
              split at h
              · rename_i e he
                have hnz2 : outc.dataUsed ≠ 0 := by simpa using hnz
                rcases hoc op.type hk with ht0 | ht1 | htM | ht3
                · obtain ⟨d2, hd2⟩ := dictIncr_ok_of_hasKey st.opBlobTotals
                    op.type outc.dataUsed (ht0 ▸ b0)
                  rw [hd2] at he
                  exact Except.noConfusion he
                · obtain ⟨d2, hd2⟩ := dictIncr_ok_of_hasKey st.opBlobTotals
                    op.type outc.dataUsed (ht1 ▸ b1)
                  rw [hd2] at he
                  exact Except.noConfusion he
                · exact absurd (checkOperation_move_dataUsed htM hop) hnz2
                · obtain ⟨d2, hd2⟩ := dictIncr_ok_of_hasKey st.opBlobTotals
                    op.type outc.dataUsed (ht3 ▸ b3)
                  rw [hd2] at he
                  exact Except.noConfusion he
              · rename_i bt2 hbt
                refine ih _ ?_ ?_ ?_ ?_ ?_ ?_ ?_ m h
                · show hasKey outc.blobHashCounts "hashed" = true
                  rw [hkeys]
                  exact hh
                · show hasKey outc.blobHashCounts "unhashed" = true
                  rw [hkeys]
                  exact hu
                · intro ha
                  show hasKey outc.blobHashCounts "signature" = true
                  rw [hkeys]
                  exact hsg ha
                · show hasKey bt2 OpType.REPLACE = true
                  rw [dictIncr_hasKey hbt]
                  exact b0
                · show hasKey bt2 OpType.REPLACE_BZ = true
                  rw [dictIncr_hasKey hbt]
                  exact b1
                · show hasKey bt2 OpType.BSDIFF = true
                  rw [dictIncr_hasKey hbt]
                  exact b3
                · intro kk hkk
                  apply hoc
                  have hkk2 : hasKey oc2 kk = true := hkk
                  rw [dictIncr_hasKey hocInc] at hkk2
                  exact hkk2
            · refine ih _ ?_ ?_ ?_ ?_ ?_ ?_ ?_ m h
              · show hasKey outc.blobHashCounts "hashed" = true
                rw [hkeys]
                exact hh
              · show hasKey outc.blobHashCounts "unhashed" = true
                rw [hkeys]
                exact hu
              · intro ha
                show hasKey outc.blobHashCounts "signature" = true
                rw [hkeys]
                exact hsg ha
              · exact b0
              · exact b1
              · exact b3
              · intro kk hkk
                apply hoc
                have hkk2 : hasKey oc2 kk = true := hkk
                rw [dictIncr_hasKey hocInc] at hkk2
                exact hkk2

/-- C10: in `_CheckOperations` the `op_blob_totals` dictionary has no MOVE
entry, yet `op_blob_totals[op.type] += curr_data_used` never hits a missing
key: `_CheckOperations` can never fail with a KeyError (first conjunct, for
arbitrary inputs), because every MOVE operation accepted by `_CheckOperation`
reports 0 used data (second conjunct) and the accumulation is guarded by
`curr_data_used` being non-zero. -/
theorem c10_blob_totals_safe :
    (∀ (ctx : CheckerCtx) (payload : Payload) (payloadType : PType)
        (operations : List Operation) (report : Report)
        (oldFsSize newFsSize newUsableSize prevDataOffset : Nat)
        (allowSignature : Bool) (m : String),
      (checkOperations ctx payload payloadType operations report oldFsSize
        newFsSize newUsableSize prevDataOffset allowSignature).1 ≠
        .error (.keyError m)) ∧
    (∀ (ctx : CheckerCtx) (payload : Payload) (payloadType : PType)
        (op : Operation) (isLast : Bool) (oldC newC : Option (List Nat))
        (oldFs newUs prev : Nat) (allowSig : Bool)
        (bhc : List (String × Nat)) (outc : OpOutcome),
      op.type = OpType.MOVE →
      checkOperation ctx payload payloadType op isLast oldC newC oldFs newUs
        prev allowSig bhc = .ok outc →
      outc.dataUsed = 0) := by
  constructor
  · intro ctx payload payloadType operations report oldFsSize newFsSize
      newUsableSize prevDataOffset allowSignature m h
    unfold checkOperations at h
    split at h
    · rename_i e he
      simp only at h
      injection h with h2
      subst h2
      refine checkOperationsLoop_no_keyError ctx payload payloadType oldFsSize
        newUsableSize prevDataOffset allowSignature operations.length
        operations (initOpsState ctx.blockSize allowSignature oldFsSize
          newUsableSize) ?_ ?_ ?_ ?_ ?_ ?_ ?_ m he
      · simp [initOpsState, hasKey]
      · simp [initOpsState, hasKey]
      · intro ha
        simp [initOpsState, hasKey, ha]
      · simp [initOpsState, hasKey]
      · simp [initOpsState, hasKey]
      · simp [initOpsState, hasKey]
      · intro kk hkk
        simp [initOpsState, hasKey] at hkk
        rcases hkk with h0 | h1 | h2 | h3
        · exact Or.inl h0.symm
        · exact Or.inr (Or.inl h1.symm)
        · exact Or.inr (Or.inr (Or.inl h2.symm))
        · exact Or.inr (Or.inr (Or.inr h3.symm))
    · rename_i st hst
      by_cases hc : (payloadType == PType.full &&
          !histKeysExactlyOne ((st.newCounters.getD []).take
            (sizeToNumBlocks ctx.blockSize newFsSize))) = true
      · rw [if_pos hc] at h
        simp at h
      · rw [if_neg hc] at h
        simp at h
  · intro ctx payload payloadType op isLast oldC newC oldFs newUs prev
      allowSig bhc outc htype hop
    exact checkOperation_move_dataUsed htype hop

theorem c10_witness :
    checkOperation exCtx exPayload PType.delta exOpMove true (some [0, 0])
      (some [0, 0]) 8192 8192 0 false [("hashed", 0), ("unhashed", 0)] =
      .ok ⟨0, some [1, 0], some [0, 1], [("hashed", 0), ("unhashed", 0)]⟩ ∧
    exOpMove.type = OpType.MOVE ∧
    (⟨0, some [1, 0], some [0, 1],
      [("hashed", 0), ("unhashed", 0)]⟩ : OpOutcome).dataUsed = 0 ∧
    (checkOperations exCtx exPayload PType.delta [exOpMove] Report.empty
      8192 8192 8192 0 false).1 ≠ .error (.keyError "k") :=
  ⟨exCheckOpMove_eval, rfl,
   c10_blob_totals_safe.2 exCtx exPayload PType.delta exOpMove true
     (some [0, 0]) (some [0, 0]) 8192 8192 0 false
     [("hashed", 0), ("unhashed", 0)]
     ⟨0, some [1, 0], some [0, 1], [("hashed", 0), ("unhashed", 0)]⟩ rfl
     exCheckOpMove_eval,
   c10_blob_totals_safe.1 exCtx exPayload PType.delta [exOpMove] Report.empty
     8192 8192 8192 0 false "k"⟩

end UpdateEngine
